import Mathlib

/-!
Shallow embedding of the empty-shelf decision engine of the
Auto-detect-the-Empty-Shelve-in-Retail-Store repository.

The embedding covers, faithfully to the Python source:
* `ImprovedYOLODetector` (src/improved_yolo_detector.py): feature scoring,
  indicator-counting confidence aggregation, sensitivity transform,
  visual-state and alert-level mapping, bounded per-section history,
  stability metrics, cooldown-gated alerting and the error-result path.
* `YOLOv8mShelfDetector` (src/yolo8m_shelf_detector.py): the YOLO box filter,
  the YOLO-weighted confidence aggregation, sensitivity transform, bounded
  history, cooldown-gated alerting and its (different) error-result path.
* `EnhancedShelfDetector` (src/enhanced_detector.py): the stability score,
  the alert gate and sensitivity clamping.

Image regions are represented by their dimensions together with the numeric
measurements the OpenCV extractors produce for them (variances, densities,
counts); every derived score, flag and decision downstream of those
measurements is computed exactly as in the source.  Rational numbers stand
for Python floats, and timestamps are caller-supplied rationals.
-/

namespace ShelfDetect

/-- Elements of a list `l` from position `l.length - n` on: the Python slice
`l[-n:]` (the most recent `n` entries when `l` is oldest-first). -/
def listLastN {α : Type} (n : ℕ) (l : List α) : List α :=
  l.drop (l.length - n)

/-! ## ImprovedYOLODetector (src/improved_yolo_detector.py) -/

/-- Raw per-region measurements produced by the OpenCV analysis helpers of
`ImprovedYOLODetector._perform_improved_analysis` for a (3-channel) region:
`np.var(gray)`, the uniformity score of `_analyze_uniformity`, the filtered
contour count and area fraction of `_detect_meaningful_objects`, the Canny
edge density, the BGR+HSV colour variance of `_advanced_color_analysis`, the
Sobel gradient-magnitude mean of `_analyze_texture_patterns` and the
`goodFeaturesToTrack` corner count of `_analyze_structure`.  All derived
scores and boolean indicators are computed from these below exactly as in
the source. -/
structure ImpFeatures where
  totalVariance : ℚ
  uniformityScore : ℚ
  meaningfulObjectCount : ℕ
  coverageFrac : ℚ
  edgeDensity : ℚ
  totalColorVariance : ℚ
  textureStrength : ℚ
  cornerCount : ℕ

/-- `detection_params['uniformity_threshold'] = 0.80`. -/
def impUniformityThreshold : ℚ := 4/5

/-- `detection_params['min_color_diversity'] = 1200`. -/
def impMinColorDiversity : ℚ := 1200

/-- `detection_params['min_texture_strength'] = 12`. -/
def impMinTextureStrength : ℚ := 12

/-- `detection_params['edge_density_threshold'] = 0.025`. -/
def impEdgeDensityThreshold : ℚ := 1/40

/-- `detection_params['lighting_variance_threshold'] = 150`. -/
def impLightingVarianceThreshold : ℚ := 150

/-- `detection_params['video_compression_factor'] = 0.85`. -/
def impVideoCompressionFactor : ℚ := 17/20

/-- `self.history_length = 10`. -/
def impHistoryLength : ℕ := 10

/-- `self.cooldown_time = 1.5`. -/
def impCooldownTime : ℚ := 3/2

/-- `objects['object_density'] = min(1.0, count * 0.2 + coverage_ratio * 2)`. -/
def impObjectDensity (f : ImpFeatures) : ℚ :=
  min 1 ((f.meaningfulObjectCount : ℚ) * (1/5) + f.coverageFrac * 2)

/-- `color['color_richness'] = min(1.0, total_color_variance / 1200)`. -/
def impColorRichness (f : ImpFeatures) : ℚ :=
  min 1 (f.totalColorVariance / impMinColorDiversity)

/-- `texture['texture_score'] = min(1.0, texture_strength / 12)`. -/
def impTextureScore (f : ImpFeatures) : ℚ :=
  min 1 (f.textureStrength / impMinTextureStrength)

/-- `structure['structure_score'] = edge_density * 10 + corner_count / 20.0`. -/
def impStructureScore (f : ImpFeatures) : ℚ :=
  f.edgeDensity * 10 + (f.cornerCount : ℚ) / 20

/-- Output of `ImprovedYOLODetector._calculate_improved_confidence`:
the classification, both confidence fields, the surfaced per-method scores
and the indicator counts. -/
structure ImpConfData where
  isEmpty : Bool
  emptyConfidence : ℚ
  fullnessScore : ℚ
  msUniformity : ℚ
  msObject : ℚ
  msColor : ℚ
  msTexture : ℚ
  msStructure : ℚ
  emptyIndicators : ℕ
  supermarketIndicators : ℕ

/-- The five primary empty indicators of
`_calculate_improved_confidence` (lines 371-375, 400-406): `is_uniform`,
`has_few_objects`, `low_color_diversity`, `low_texture`,
`minimal_structure`, summed as booleans. -/
def impPrimaryIndicators (f : ImpFeatures) : ℕ :=
  (if f.uniformityScore > impUniformityThreshold then 1 else 0) +
  (if f.meaningfulObjectCount ≤ 1 then 1 else 0) +
  (if ¬(f.totalColorVariance > impMinColorDiversity) then 1 else 0) +
  (if ¬(f.textureStrength > impMinTextureStrength) then 1 else 0) +
  (if ¬(f.edgeDensity > impEdgeDensityThreshold) then 1 else 0)

/-- The three supermarket-mode indicators (lines 380-397):
`shelf_background_detected`, `lighting_uniformity`, `minimal_edges`
(`supermarket_mode` is `True` in `detection_params`). -/
def impSupermarketIndicators (f : ImpFeatures) : ℕ :=
  (if f.totalVariance < impLightingVarianceThreshold ∧ f.meaningfulObjectCount = 0
   then 1 else 0) +
  (if f.uniformityScore > 3/4 then 1 else 0) +
  (if f.edgeDensity < impEdgeDensityThreshold then 1 else 0)

/-- `total_empty_indicators = primary + supermarket` (line 409). -/
def impTotalIndicators (f : ImpFeatures) : ℕ :=
  impPrimaryIndicators f + impSupermarketIndicators f

/-- The weighted fullness blend of the low-indicator branch (lines 424-430),
including the video-compression factor. -/
def impFullnessBlend (f : ImpFeatures) : ℚ :=
  (impObjectDensity f * (2/5) + impColorRichness f * (3/10) +
   impTextureScore f * (1/5) + impStructureScore f / 5 * (1/10)) *
    impVideoCompressionFactor

/-- The graduated confidence bands of `_calculate_improved_confidence`
(lines 412-431): `(is_empty, empty_confidence)` before the sensitivity
transform is applied. -/
def impConfBase (f : ImpFeatures) : Bool × ℚ :=
  let total := impTotalIndicators f
  if 5 ≤ total then
    (true, 17/20 + min (3/20) (((total - 5 : ℕ) : ℚ) * (3/100)))
  else if 3 ≤ total then
    (true, 13/20 + ((total - 3 : ℕ) : ℚ) * (1/10))
  else if 2 ≤ total then
    (if 3 ≤ total then true else false, 9/20 + ((total - 2 : ℕ) : ℚ) * (1/10))
  else
    (false, min 1 (impFullnessBlend f))

/-- `ImprovedYOLODetector._calculate_improved_confidence` (lines 360-453):
the graduated bands followed by the sensitivity transform
(`min(1.0, ec * (1 + sensitivity*0.3))` when empty,
`max(0.0, ec * (2.0 - sensitivity))` when not), with the per-method scores
surfaced. -/
def impCalcConfidence (f : ImpFeatures) (sensitivity : ℚ) : ImpConfData :=
  let base := impConfBase f
  let emptyConf : ℚ :=
    if base.1 then min 1 (base.2 * (1 + sensitivity * (3/10)))
    else max 0 (base.2 * (2 - sensitivity))
  { isEmpty := base.1
    emptyConfidence := emptyConf
    fullnessScore := if base.1 then 1 - emptyConf else emptyConf
    msUniformity := f.uniformityScore
    msObject := impObjectDensity f
    msColor := impColorRichness f
    msTexture := impTextureScore f
    msStructure := min 1 (impStructureScore f / 5)
    emptyIndicators := impTotalIndicators f
    supermarketIndicators := impSupermarketIndicators f }

/-- `ImprovedYOLODetector._determine_visual_state`. -/
def impDetermineVisualState (confidence : ℚ) (isEmpty : Bool) : String :=
  if isEmpty = false then "WELL_STOCKED"
  else if confidence ≥ 17/20 then "CRITICALLY_EMPTY"
  else if confidence ≥ 7/10 then "MOSTLY_EMPTY"
  else if confidence ≥ 11/20 then "PARTIALLY_EMPTY"
  else if confidence ≥ 2/5 then "LOW_STOCK"
  else "UNCERTAIN"

/-- `ImprovedYOLODetector._determine_alert_level`. -/
def impDetermineAlertLevel (confidence : ℚ) (isEmpty : Bool) : String :=
  if isEmpty = false then "NONE"
  else if confidence ≥ 17/20 then "CRITICAL"
  else if confidence ≥ 7/10 then "HIGH"
  else if confidence ≥ 11/20 then "MEDIUM"
  else "LOW"

/-- One retained entry of `self.detection_history[shelf_name]`: the fields
of the `detection_record` dict appended by `analyze_shelf_region` that the
engine reads back (the embedded raw analysis dict is omitted because no
downstream computation reads it). -/
structure ImpRecord where
  timestamp : ℚ
  isEmpty : Bool
  emptyConfidence : ℚ
  fullnessScore : ℚ
  visualState : String
  alertLevel : String
  frameNumber : ℕ

/-- Output of `ImprovedYOLODetector._calculate_stability_metrics`. -/
structure ImpStab where
  consistencyScore : ℕ
  detectionStrength : ℚ
  trend : String

/-- `ImprovedYOLODetector._calculate_stability_metrics` (lines 485-522):
with fewer than 3 records the history length itself is returned as the
consistency score; otherwise the count of the last at-most-5 records whose
`is_empty` equals the most recent one, capped at 5, together with the mean
confidence of the last 3 records and the fullness trend. -/
def impCalcStability (history : List ImpRecord) : ImpStab :=
  if history.length < 3 then
    { consistencyScore := history.length, detectionStrength := 1/2, trend := "UNKNOWN" }
  else
    let recentStates : List Bool := (listLastN 5 history).map (fun r => r.isEmpty)
    let lastState : Bool := recentStates.getLast?.getD true
    let consistentDetections : ℕ := recentStates.countP (fun s => s = lastState)
    let recentConfs : List ℚ := (listLastN 3 history).map (fun r => r.emptyConfidence)
    let strength : ℚ := recentConfs.sum / (recentConfs.length : ℚ)
    let trend : String :=
      if 5 ≤ history.length then
        let oldConfs := ((listLastN 5 history).take 3).map (fun r => r.fullnessScore)
        let newConfs := (listLastN 3 history).map (fun r => r.fullnessScore)
        let oldAvg := oldConfs.sum / (oldConfs.length : ℚ)
        let newAvg := newConfs.sum / (newConfs.length : ℚ)
        if newAvg > oldAvg + 1/10 then "IMPROVING"
        else if newAvg < oldAvg - 1/10 then "DECLINING"
        else "STABLE"
      else "UNKNOWN"
    { consistencyScore := min 5 consistentDetections
      detectionStrength := strength
      trend := trend }

/-- Mutable state of an `ImprovedYOLODetector` instance: the sensitivity,
the set of section names present in the `detection_history` dict, and that
dict together with `alert_cooldown` and `frame_count` (maps are total
functions; only names in `seen` carry meaningful entries, matching dict
semantics). -/
structure ImpState where
  sensitivity : ℚ
  seen : List String
  history : String → List ImpRecord
  cooldown : String → ℚ
  frameCount : ℕ

/-- A freshly constructed `ImprovedYOLODetector(sensitivity=0.7)`. -/
def impInitState : ImpState :=
  { sensitivity := 7/10, seen := [], history := fun _ => [],
    cooldown := fun _ => 0, frameCount := 0 }

/-- `ImprovedYOLODetector._should_trigger_alert` (lines 524-540): gates on
`is_empty`, the alert level, a 0.5 confidence floor, a consistency floor of
2 and the per-section cooldown; on firing it stamps `alert_cooldown`. -/
def impShouldTriggerAlert (st : ImpState) (shelfName : String) (timestamp : ℚ)
    (conf : ImpConfData) (stab : ImpStab) (alertLevel : String) : Bool × ImpState :=
  if conf.isEmpty = false ∨ alertLevel = "NONE" then (false, st)
  else if conf.emptyConfidence < 1/2 then (false, st)
  else if stab.consistencyScore < 2 then (false, st)
  else if timestamp - st.cooldown shelfName < impCooldownTime then (false, st)
  else
    (true, { st with cooldown := fun n => if n = shelfName then timestamp else st.cooldown n })

/-- The analysis result dict returned by
`ImprovedYOLODetector.analyze_shelf_region` (the fields with engine-visible
content; the visual-feedback color map and the embedded details dict are
rendering data and carry no further decisions). -/
structure ImpResult where
  isEmpty : Bool
  confidence : ℚ
  fullnessScore : ℚ
  shouldAlert : Bool
  alertLevel : String
  visualState : String
  stability : ℕ
  detectionStrength : ℚ
  frameCount : ℕ
  timestamp : ℚ
  trend : String
  msUniformity : ℚ
  msObject : ℚ
  msColor : ℚ
  msTexture : ℚ
  msStructure : ℚ

/-- `ImprovedYOLODetector._create_error_result` (lines 561-579): the canned
`is_empty=True, confidence=1.0` result (its `timestamp` field is the wall
clock at the moment of the call, modelled by the call's timestamp). -/
def impCreateErrorResult (st : ImpState) (timestamp : ℚ) : ImpResult :=
  { isEmpty := true, confidence := 1, fullnessScore := 0, shouldAlert := false,
    alertLevel := "CRITICAL", visualState := "CRITICALLY_EMPTY", stability := 0,
    detectionStrength := 0, frameCount := st.frameCount, timestamp := timestamp,
    trend := "UNKNOWN", msUniformity := 0, msObject := 0, msColor := 0,
    msTexture := 0, msStructure := 0 }

/-- The history append of `analyze_shelf_region` (lines 107-111): append,
then `pop(0)` once if the length exceeds `self.history_length`. -/
def impPushHistory (h : List ImpRecord) (r : ImpRecord) : List ImpRecord :=
  let h2 := h ++ [r]
  if impHistoryLength < h2.length then h2.drop 1 else h2

/-- An image region handed to `analyze_shelf_region`: its pixel dimensions
and the measurements the extractors would produce on its content. -/
structure ImpRoi where
  height : ℕ
  width : ℕ
  feat : ImpFeatures

/-- The lazy section initialisation of `analyze_shelf_region`
(lines 79-81): a previously unseen section gets an empty history and a zero
cooldown stamp. -/
def impInitSection (st : ImpState) (shelfName : String) : ImpState :=
  if shelfName ∈ st.seen then st
  else
    { st with
      seen := shelfName :: st.seen,
      history := fun n => if n = shelfName then [] else st.history n,
      cooldown := fun n => if n = shelfName then 0 else st.cooldown n }

/-- The bounded history update of `analyze_shelf_region` (lines 107-111)
applied to the section's entry of the history map. -/
def impRecordHistory (st : ImpState) (shelfName : String) (record : ImpRecord) : ImpState :=
  { st with
    history := fun n =>
      if n = shelfName then impPushHistory (st.history shelfName) record
      else st.history n }

/-- The detection record appended by the success path of
`analyze_shelf_region` (lines 96-105; after the section initialisation the
frame counter has already been bumped). -/
def impBuildRecord (st : ImpState) (r : ImpRoi) (shelfName : String)
    (timestamp : ℚ) : ImpRecord :=
  let st2 : ImpState := impInitSection { st with frameCount := st.frameCount + 1 } shelfName
  let conf := impCalcConfidence r.feat st2.sensitivity
  { timestamp := timestamp, isEmpty := conf.isEmpty,
    emptyConfidence := conf.emptyConfidence, fullnessScore := conf.fullnessScore,
    visualState := impDetermineVisualState conf.emptyConfidence conf.isEmpty,
    alertLevel := impDetermineAlertLevel conf.emptyConfidence conf.isEmpty,
    frameNumber := st2.frameCount }

/-- The detector state right after the bounded history update of the
success path (`st3` in the step-by-step reading of lines 76-111). -/
def impStateAfterRecord (st : ImpState) (r : ImpRoi) (shelfName : String)
    (timestamp : ℚ) : ImpState :=
  impRecordHistory (impInitSection { st with frameCount := st.frameCount + 1 } shelfName)
    shelfName (impBuildRecord st r shelfName timestamp)

/-- The `_should_trigger_alert` call made by the success path (line 117),
on the post-history-update state. -/
def impAlertCall (st : ImpState) (r : ImpRoi) (shelfName : String)
    (timestamp : ℚ) : Bool × ImpState :=
  let st2 : ImpState := impInitSection { st with frameCount := st.frameCount + 1 } shelfName
  let conf := impCalcConfidence r.feat st2.sensitivity
  let st3 := impStateAfterRecord st r shelfName timestamp
  impShouldTriggerAlert st3 shelfName timestamp conf
    (impCalcStability (st3.history shelfName))
    (impDetermineAlertLevel conf.emptyConfidence conf.isEmpty)

/-- The success path of `ImprovedYOLODetector.analyze_shelf_region` after
the input guards: bump `frame_count`, lazily initialise the section state,
aggregate confidence, append the detection record (bounded), compute
stability and decide the alert. -/
def impAnalyzeSuccess (st : ImpState) (r : ImpRoi) (shelfName : String)
    (timestamp : ℚ) : ImpResult × ImpState :=
  let st2 : ImpState := impInitSection { st with frameCount := st.frameCount + 1 } shelfName
  let conf := impCalcConfidence r.feat st2.sensitivity
  let visualState := impDetermineVisualState conf.emptyConfidence conf.isEmpty
  let alertLevel := impDetermineAlertLevel conf.emptyConfidence conf.isEmpty
  let st3 : ImpState := impStateAfterRecord st r shelfName timestamp
  let stab := impCalcStability (st3.history shelfName)
  let alert := impAlertCall st r shelfName timestamp
  ({ isEmpty := conf.isEmpty, confidence := conf.emptyConfidence,
     fullnessScore := conf.fullnessScore, shouldAlert := alert.1,
     alertLevel := alertLevel, visualState := visualState,
     stability := stab.consistencyScore, detectionStrength := stab.detectionStrength,
     frameCount := st3.frameCount, timestamp := timestamp, trend := stab.trend,
     msUniformity := conf.msUniformity, msObject := conf.msObject,
     msColor := conf.msColor, msTexture := conf.msTexture,
     msStructure := conf.msStructure }, alert.2)

/-- `ImprovedYOLODetector.analyze_shelf_region` (lines 62-136): a missing
region (`roi is None`, which also covers `roi.size == 0` since such a region
has a zero dimension) or a region with either dimension below 50 returns the
error result and leaves the detector state untouched; otherwise the full
pipeline runs. -/
def impAnalyzeShelfRegion (st : ImpState) (roi : Option ImpRoi) (shelfName : String)
    (timestamp : ℚ) : ImpResult × ImpState :=
  match roi with
  | none => (impCreateErrorResult st timestamp, st)
  | some r =>
    if r.height < 50 ∨ r.width < 50 then (impCreateErrorResult st timestamp, st)
    else impAnalyzeSuccess st r shelfName timestamp

/-- `ImprovedYOLODetector.update_sensitivity` (lines 556-559):
`self.sensitivity = max(0.1, min(1.0, new_sensitivity))`. -/
def impUpdateSensitivity (st : ImpState) (v : ℚ) : ImpState :=
  { st with sensitivity := max (1/10) (min 1 v) }

/-- One call of the external frame loop into `analyze_shelf_region`. -/
structure ImpCall where
  roi : Option ImpRoi
  shelfName : String
  timestamp : ℚ

/-- Runs a sequence of `analyze_shelf_region` calls, collecting each call
together with its result. -/
def impRunTrace (st : ImpState) : List ImpCall → List (ImpCall × ImpResult)
  | [] => []
  | c :: cs =>
    let p := impAnalyzeShelfRegion st c.roi c.shelfName c.timestamp
    (c, p.1) :: impRunTrace p.2 cs

/-- Runs a sequence of `analyze_shelf_region` calls, returning the final
detector state. -/
def impRunState (st : ImpState) : List ImpCall → ImpState
  | [] => st
  | c :: cs => impRunState (impAnalyzeShelfRegion st c.roi c.shelfName c.timestamp).2 cs

/-- Timestamps of the calls in a trace that fired an alert
(`should_alert = True`) for the given section, in call order. -/
def impFiredTimes (sectionName : String) : List (ImpCall × ImpResult) → List ℚ
  | [] => []
  | p :: tr =>
    if p.1.shelfName = sectionName ∧ p.2.shouldAlert then
      p.1.timestamp :: impFiredTimes sectionName tr
    else impFiredTimes sectionName tr

/-! ## YOLOv8mShelfDetector (src/yolo8m_shelf_detector.py) -/

/-- The YOLO evidence fields of the analysis dict produced by
`YOLOv8mShelfDetector._perform_yolo_detection`: filtered product count,
coverage ratio and model availability. -/
structure Y8Yolo where
  productCount : ℕ
  coverageFrac : ℚ
  available : Bool

/-- Raw per-region measurements for `YOLOv8mShelfDetector`: the traditional
OpenCV measurements (the same helpers as the improved detector, except that
colour richness is histogram-based, texture uses Laplacian variance plus the
Sobel mean, and structure counts corners and Hough lines) together with the
YOLO evidence. -/
structure Y8Features where
  totalVariance : ℚ
  uniformityScore : ℚ
  meaningfulObjectCount : ℕ
  coverageFrac : ℚ
  edgeDensity : ℚ
  totalColorVariance : ℚ
  colorRichnessRaw : ℚ
  laplacianVar : ℚ
  sobelMean : ℚ
  cornerCount : ℕ
  lineCount : ℕ
  yolo : Y8Yolo

/-- `self.history_length = 15`. -/
def y8HistoryLength : ℕ := 15

/-- `self.cooldown_time = 1.0`. -/
def y8CooldownTime : ℚ := 1

/-- `color['color_richness'] = min(1.0, color_richness)` in
`YOLOv8mShelfDetector._advanced_color_analysis` (the raw value is the
histogram-bin count divided by 96). -/
def y8ColorRichness (f : Y8Features) : ℚ := min 1 f.colorRichnessRaw

/-- `texture_score = min(1.0, (laplacian_var + sobel_mean * 10) / 1000.0)`
in `YOLOv8mShelfDetector._analyze_texture`. -/
def y8TextureScore (f : Y8Features) : ℚ :=
  min 1 ((f.laplacianVar + f.sobelMean * 10) / 1000)

/-- `structure_score = corner_count + line_count * 2` in
`YOLOv8mShelfDetector._analyze_structure`. -/
def y8StructureScore (f : Y8Features) : ℕ :=
  f.cornerCount + f.lineCount * 2

/-- `objects['object_density']` from
`YOLOv8mShelfDetector._detect_enhanced_objects` (lines 320-328): the
traditional density blended 40/60 with the YOLO density when the model is
available, otherwise the traditional density alone. -/
def y8ObjectDensity (f : Y8Features) : ℚ :=
  let traditional := min 1 ((f.meaningfulObjectCount : ℚ) * (1/5) + f.coverageFrac * 2)
  let yoloDensity :=
    min 1 ((f.yolo.productCount : ℚ) * (3/10) + f.yolo.coverageFrac * (3/2))
  if f.yolo.available then traditional * (2/5) + yoloDensity * (3/5) else traditional

/-- Output of `YOLOv8mShelfDetector._calculate_yolo_enhanced_confidence`. -/
structure Y8ConfData where
  isEmpty : Bool
  emptyConfidence : ℚ
  fullnessScore : ℚ
  msUniformity : ℚ
  msObject : ℚ
  msColor : ℚ
  msTexture : ℚ
  msStructure : ℚ
  msYolo : ℚ
  emptyIndicators : ℕ
  yoloIndicators : ℕ
  yoloEnhanced : Bool

/-- The five primary empty indicators of
`_calculate_yolo_enhanced_confidence` (lines 356-360, 385-391). -/
def y8PrimaryCount (f : Y8Features) : ℕ :=
  (if f.uniformityScore > 3/4 then 1 else 0) +
  (if f.meaningfulObjectCount ≤ 1 then 1 else 0) +
  (if ¬(f.totalColorVariance > 600) then 1 else 0) +
  (if ¬(y8TextureScore f > 6/100) then 1 else 0) +
  (if ¬(y8StructureScore f > 20) then 1 else 0)

/-- The YOLO indicators `yolo_no_products` and `yolo_low_coverage`
(lines 363-364, 394): counted only when the model is available. -/
def y8YoloCount (f : Y8Features) : ℕ :=
  if f.yolo.available then
    (if f.yolo.productCount = 0 then 1 else 0) +
      (if f.yolo.coverageFrac < 12/100 then 1 else 0)
  else 0

/-- The three supermarket-mode indicators (lines 370-382). -/
def y8SmktCount (f : Y8Features) : ℕ :=
  (if f.totalVariance < 120 ∧ f.meaningfulObjectCount = 0 then 1 else 0) +
  (if f.uniformityScore > 7/10 then 1 else 0) +
  (if f.edgeDensity < 22/1000 then 1 else 0)

/-- The YOLO-weighted fullness blend of the low-indicator branch when the
model is available (lines 423-435). -/
def y8FullnessAvailable (f : Y8Features) : ℚ :=
  let yoloFullness := f.yolo.coverageFrac * (5/2)
  let yoloProductBoost := min (2/5) ((f.yolo.productCount : ℚ) * (3/25))
  let traditionalFullness := y8ObjectDensity f * (7/20) + y8ColorRichness f * (1/4) +
    y8TextureScore f * (1/5) + ((y8StructureScore f : ℚ) / 5) * (3/20)
  min 1 (traditionalFullness * (2/5) + yoloFullness * (1/2) + yoloProductBoost)

/-- The traditional fullness blend of the low-indicator branch when the
model is unavailable (lines 451-457). -/
def y8TraditionalFullness (f : Y8Features) : ℚ :=
  y8ObjectDensity f * (2/5) + y8ColorRichness f * (3/10) +
    y8TextureScore f * (1/5) + ((y8StructureScore f : ℚ) / 5) * (1/10)

/-- The band trees of `_calculate_yolo_enhanced_confidence`
(lines 400-459): `(is_empty, empty_confidence)` before the sensitivity
transform. -/
def y8ConfBase (f : Y8Features) : Bool × ℚ :=
  let primaryCount := y8PrimaryCount f
  let yoloCount := y8YoloCount f
  let smktCount := y8SmktCount f
  if f.yolo.available then
    if 2 ≤ yoloCount ∧ 2 ≤ primaryCount then
      (true, 9/10 + min (1/10) ((primaryCount : ℚ) * (1/50)))
    else if 2 ≤ yoloCount ∧ 1 ≤ primaryCount then
      (true, 41/50 + (primaryCount : ℚ) * (1/20) + (smktCount : ℚ) * (3/100))
    else if 1 ≤ yoloCount ∧ 2 ≤ primaryCount then
      (true, 18/25 + (primaryCount : ℚ) * (1/20) + (smktCount : ℚ) * (1/25))
    else if 3 ≤ primaryCount ∧ 1 ≤ smktCount then
      (true, 17/25 + ((primaryCount - 3 : ℕ) : ℚ) * (1/20))
    else if 1 ≤ yoloCount ∧ 1 ≤ primaryCount then
      (true, 31/50 + (primaryCount : ℚ) * (1/25) + (smktCount : ℚ) * (3/100))
    else if 3 ≤ primaryCount then
      (true, 29/50 + ((primaryCount - 3 : ℕ) : ℚ) * (1/25) + (smktCount : ℚ) * (3/100))
    else
      (false, max (2/25) (1 - y8FullnessAvailable f * (11/10)))
  else
    let total : ℕ := primaryCount + smktCount
    if 4 ≤ total then
      (true, 41/50 + min (3/20) (((total - 4 : ℕ) : ℚ) * (1/25)))
    else if 3 ≤ total then
      (true, 17/25 + ((total - 3 : ℕ) : ℚ) * (1/10))
    else if 2 ≤ total then
      (true, 11/20 + ((total - 2 : ℕ) : ℚ) * (1/10))
    else
      (false, max (1/10) (1 - y8TraditionalFullness f * (21/20)))

/-- `YOLOv8mShelfDetector._calculate_yolo_enhanced_confidence`
(lines 344-484): the band trees followed by the sensitivity transform
(`min(1.0, ec * (1 + s*0.2) + 0.12)` when empty — the
`empty_confidence_boost` parameter is 0.12 — and
`max(0.0, ec * (2.0 - s))` when not), with the per-method scores
surfaced. -/
def y8CalcConfidence (f : Y8Features) (sensitivity : ℚ) : Y8ConfData :=
  let base := y8ConfBase f
  let emptyConf : ℚ :=
    if base.1 then min 1 (base.2 * (1 + sensitivity * (1/5)) + 3/25)
    else max 0 (base.2 * (2 - sensitivity))
  { isEmpty := base.1
    emptyConfidence := emptyConf
    fullnessScore := if base.1 then 1 - emptyConf else emptyConf
    msUniformity := f.uniformityScore
    msObject := y8ObjectDensity f
    msColor := y8ColorRichness f
    msTexture := y8TextureScore f
    msStructure := min 1 ((y8StructureScore f : ℚ) / 5)
    msYolo := if f.yolo.available then f.yolo.coverageFrac else 0
    emptyIndicators := y8PrimaryCount f + y8SmktCount f
    yoloIndicators := y8YoloCount f
    yoloEnhanced := f.yolo.available }

/-- One raw detection returned by the YOLO model for a region: class name,
confidence and the `xyxy` bounding box. -/
structure YoloBox where
  className : String
  score : ℚ
  x1 : ℚ
  y1 : ℚ
  x2 : ℚ
  y2 : ℚ

/-- The bounding-box area `(x2 - x1) * (y2 - y1)` computed inside
`_perform_yolo_detection`. -/
def yoloBoxArea (b : YoloBox) : ℚ := (b.x2 - b.x1) * (b.y2 - b.y1)

/-- `self.product_classes` (the Python set literal of lines 46-53; the
duplicate 'toothbrush' entry collapses in the set). -/
def y8ProductClasses : List String :=
  ["bottle", "cup", "bowl", "banana", "apple", "sandwich", "orange",
   "broccoli", "carrot", "hot dog", "pizza", "donut", "cake",
   "potted plant", "vase", "scissors", "toothbrush", "book",
   "cell phone", "laptop", "mouse", "remote", "keyboard", "microwave",
   "oven", "toaster", "sink", "refrigerator", "clock", "teddy bear",
   "hair drier", "wine glass", "fork", "knife", "spoon"]

/-- `detection_params['yolo_confidence_threshold'] = 0.20`. -/
def y8YoloConfidenceThreshold : ℚ := 1/5

/-- The per-box filter of `_perform_yolo_detection` (line 232):
`class_name.lower() in self.product_classes and confidence > threshold`. -/
def y8IsProductBox (b : YoloBox) : Bool :=
  decide (b.className.map Char.toLower ∈ y8ProductClasses) &&
    decide (b.score > y8YoloConfidenceThreshold)

/-- `YOLOv8mShelfDetector._perform_yolo_detection` (lines 200-259), for a
loaded model that returned `boxes`: the loop accumulating the filtered
detections and their areas, then
`coverage_ratio = min(1.0, total_area / roi_area) if roi_area > 0 else 0.0`. -/
def y8PerformYoloDetection (boxes : List YoloBox) (roiHeight roiWidth : ℕ) : Y8Yolo :=
  let acc := boxes.foldl
    (fun acc b => if y8IsProductBox b then (acc.1 + 1, acc.2 + yoloBoxArea b) else acc)
    ((0 : ℕ), (0 : ℚ))
  let roiArea : ℚ := ((roiHeight * roiWidth : ℕ) : ℚ)
  { productCount := acc.1
    coverageFrac := if 0 < roiArea then min 1 (acc.2 / roiArea) else 0
    available := true }

/-- One retained entry of the YOLOv8m detector's
`detection_history[shelf_name]` (the fields read back by
`_calculate_trend`; the embedded analysis and product list are not read). -/
structure Y8Record where
  timestamp : ℚ
  isEmpty : Bool
  emptyConfidence : ℚ
  fullnessScore : ℚ

/-- Mutable state of a `YOLOv8mShelfDetector` instance. -/
structure Y8State where
  sensitivity : ℚ
  seen : List String
  history : String → List Y8Record
  cooldown : String → ℚ
  frameCount : ℕ

/-- A freshly constructed `YOLOv8mShelfDetector(sensitivity=0.7)`. -/
def y8InitState : Y8State :=
  { sensitivity := 7/10, seen := [], history := fun _ => [],
    cooldown := fun _ => 0, frameCount := 0 }

/-- `YOLOv8mShelfDetector.update_sensitivity` (lines 583-586):
`self.sensitivity = max(0.1, min(0.9, new_sensitivity))`. -/
def y8UpdateSensitivity (st : Y8State) (v : ℚ) : Y8State :=
  { st with sensitivity := max (1/10) (min (9/10) v) }

/-- `YOLOv8mShelfDetector._should_trigger_alert` (lines 618-632): gates on
`is_empty`, the cooldown, and a 0.65 confidence threshold; stamps the
cooldown on firing. -/
def y8ShouldTriggerAlert (st : Y8State) (shelfName : String) (conf : Y8ConfData)
    (timestamp : ℚ) : Bool × Y8State :=
  if conf.isEmpty = false then (false, st)
  else if timestamp - st.cooldown shelfName < y8CooldownTime then (false, st)
  else if conf.emptyConfidence ≥ 13/20 then
    (true, { st with cooldown := fun n => if n = shelfName then timestamp else st.cooldown n })
  else (false, st)

/-- Least-squares slope of `np.polyfit(range(n), ys, 1)[0]`:
`(n·Σxy − Σx·Σy) / (n·Σx² − (Σx)²)` for `x = 0, …, n−1`. -/
def polySlope (ys : List ℚ) : ℚ :=
  let n : ℚ := (ys.length : ℚ)
  let xs : List ℚ := (List.range ys.length).map (fun i => (i : ℚ))
  let sx := xs.sum
  let sy := ys.sum
  let sxy := ((xs.zip ys).map (fun p => p.1 * p.2)).sum
  let sxx := (xs.map (fun x => x * x)).sum
  (n * sxy - sx * sy) / (n * sxx - sx * sx)

/-- `YOLOv8mShelfDetector._calculate_trend` (lines 634-651). -/
def y8CalcTrend (history : List Y8Record) : String :=
  if history.length < 3 then "UNKNOWN"
  else
    let confidences := (listLastN 5 history).map (fun r => r.emptyConfidence)
    if 3 ≤ confidences.length then
      let slope := polySlope confidences
      if slope > 1/10 then "EMPTYING"
      else if slope < -(1/10) then "FILLING"
      else "STABLE"
    else "UNKNOWN"

/-- `YOLOv8mShelfDetector._determine_visual_state`. -/
def y8DetermineVisualState (confidence : ℚ) (isEmpty : Bool) : String :=
  if isEmpty = false then "WELL_STOCKED"
  else if confidence ≥ 17/20 then "CRITICALLY_EMPTY"
  else if confidence ≥ 7/10 then "MOSTLY_EMPTY"
  else if confidence ≥ 11/20 then "PARTIALLY_EMPTY"
  else if confidence ≥ 2/5 then "LOW_STOCK"
  else "UNCERTAIN"

/-- `YOLOv8mShelfDetector._determine_alert_level` (returns `'LOW'`, not
`'NONE'`, for non-empty results). -/
def y8DetermineAlertLevel (confidence : ℚ) (isEmpty : Bool) : String :=
  if isEmpty = false then "LOW"
  else if confidence ≥ 17/20 then "CRITICAL"
  else if confidence ≥ 7/10 then "HIGH"
  else if confidence ≥ 11/20 then "MEDIUM"
  else "LOW"

/-- The analysis result dict returned by
`YOLOv8mShelfDetector.analyze_shelf_region` (engine-visible fields). -/
structure Y8Result where
  isEmpty : Bool
  confidence : ℚ
  fullnessScore : ℚ
  visualState : String
  alertLevel : String
  shouldAlert : Bool
  trend : String

/-- `YOLOv8mShelfDetector._create_error_result` (lines 653-667): note
`is_empty=False, confidence=0.0`, unlike the improved detector's error
result. -/
def y8CreateErrorResult : Y8Result :=
  { isEmpty := false, confidence := 0, fullnessScore := 0,
    visualState := "UNCERTAIN", alertLevel := "LOW", shouldAlert := false,
    trend := "UNKNOWN" }

/-- The history append of the YOLOv8m `analyze_shelf_region`
(lines 146-150): append, then `pop(0)` once beyond `history_length`. -/
def y8PushHistory (h : List Y8Record) (r : Y8Record) : List Y8Record :=
  let h2 := h ++ [r]
  if y8HistoryLength < h2.length then h2.drop 1 else h2

/-- A region handed to the YOLOv8m `analyze_shelf_region`. -/
structure Y8Roi where
  height : ℕ
  width : ℕ
  feat : Y8Features

/-- The lazy section initialisation of the YOLOv8m
`analyze_shelf_region` (lines 117-119). -/
def y8InitSection (st : Y8State) (shelfName : String) : Y8State :=
  if shelfName ∈ st.seen then st
  else
    { st with
      seen := shelfName :: st.seen,
      history := fun n => if n = shelfName then [] else st.history n,
      cooldown := fun n => if n = shelfName then 0 else st.cooldown n }

/-- The success path of `YOLOv8mShelfDetector.analyze_shelf_region`. -/
def y8AnalyzeSuccess (st : Y8State) (r : Y8Roi) (shelfName : String)
    (timestamp : ℚ) : Y8Result × Y8State :=
  let st2 : Y8State := y8InitSection { st with frameCount := st.frameCount + 1 } shelfName
  let conf := y8CalcConfidence r.feat st2.sensitivity
  let visualState := y8DetermineVisualState conf.emptyConfidence conf.isEmpty
  let alertLevel := y8DetermineAlertLevel conf.emptyConfidence conf.isEmpty
  let record : Y8Record :=
    { timestamp := timestamp, isEmpty := conf.isEmpty,
      emptyConfidence := conf.emptyConfidence, fullnessScore := conf.fullnessScore }
  let st3 : Y8State :=
    { st2 with
      history := fun n =>
        if n = shelfName then y8PushHistory (st2.history shelfName) record
        else st2.history n }
  let alert := y8ShouldTriggerAlert st3 shelfName conf timestamp
  ({ isEmpty := conf.isEmpty, confidence := conf.emptyConfidence,
     fullnessScore := conf.fullnessScore, visualState := visualState,
     alertLevel := alertLevel, shouldAlert := alert.1,
     trend := y8CalcTrend (st3.history shelfName) }, alert.2)

/-- `YOLOv8mShelfDetector.analyze_shelf_region` (lines 100-166): a missing
or too-small region returns the (stockful-looking) error result and leaves
the state untouched; otherwise the full pipeline runs. -/
def y8AnalyzeShelfRegion (st : Y8State) (roi : Option Y8Roi) (shelfName : String)
    (timestamp : ℚ) : Y8Result × Y8State :=
  match roi with
  | none => (y8CreateErrorResult, st)
  | some r =>
    if r.height < 50 ∨ r.width < 50 then (y8CreateErrorResult, st)
    else y8AnalyzeSuccess st r shelfName timestamp

/-! ## EnhancedShelfDetector (src/enhanced_detector.py) -/

/-- `EnhancedShelfDetector._calculate_stability` (lines 237-252) on the
`is_empty` sequence of a section's history (the only record field the
function reads): below 3 records the history length, otherwise the count of
the last at-most-5 states equal to the most recent one, capped at 5. -/
def enhCalculateStability (states : List Bool) : ℕ :=
  if states.length < 3 then states.length
  else
    let recentStates := listLastN 5 states
    let lastState := recentStates.getLast?.getD true
    min 5 (recentStates.countP (fun s => s = lastState))

/-- `EnhancedShelfDetector._should_alert` (lines 254-276): gates on
`is_empty`, a 0.6 confidence floor, a stability floor of 3 and the 2.0s
cooldown; returns the decision and the updated cooldown stamp. -/
def enhShouldAlert (cooldownVal : ℚ) (timestamp : ℚ) (isEmpty : Bool)
    (confidence : ℚ) (stability : ℕ) : Bool × ℚ :=
  if isEmpty = false then (false, cooldownVal)
  else if confidence < 3/5 then (false, cooldownVal)
  else if stability < 3 then (false, cooldownVal)
  else if timestamp - cooldownVal < 2 then (false, cooldownVal)
  else (true, timestamp)

/-- `EnhancedShelfDetector.update_sensitivity` (lines 278-280):
`self.sensitivity = max(0.1, min(1.0, new_sensitivity))`. -/
def enhUpdateSensitivity (v : ℚ) : ℚ := max (1/10) (min 1 v)

/-! ## Spec-side definitions (for refinement comparisons) -/

/-- Modelled from the spec wording of `update_sensitivity`: clamps the value
to the interval [0.1, 1.0]. -/
def specSensitivityClamp (v : ℚ) : ℚ := max (1/10) (min 1 v)

/-- Modelled from the spec wording of the consistency score: the count of
the most recent at-most-5 history states whose value matches the most recent
state, capped at 5. -/
def specConsistencyScore (states : List Bool) : ℕ :=
  let recent := listLastN 5 states
  min 5 (recent.countP (fun s => s = recent.getLast?.getD true))

/-! ## Helper lemmas -/

/-- Taking the most recent `n` entries commutes with mapping a record
projection over the history. -/
theorem listLastN_map {α β : Type} (f : α → β) (n : ℕ) (l : List α) :
    listLastN n (l.map f) = (listLastN n l).map f := by
  simp [listLastN]

/-- The improved aggregator's pre-sensitivity confidence is at least 0.65
whenever it classifies the region as empty (the two empty bands start at
0.85 and 0.65). -/
theorem impConfBase_empty_lb (f : ImpFeatures) (h : (impConfBase f).1 = true) :
    13/20 ≤ (impConfBase f).2 := by
  simp only [impConfBase] at h ⊢
  split_ifs at h ⊢ with h5 h3 h2
  · have hmin : (0:ℚ) ≤ min (3/20) (((impTotalIndicators f - 5 : ℕ) : ℚ) * (3/100)) :=
      le_min (by norm_num) (by positivity)
    dsimp only
    linarith
  · have : (0:ℚ) ≤ ((impTotalIndicators f - 3 : ℕ) : ℚ) * (1/10) := by positivity
    dsimp only
    linarith

/-- The improved aggregator's pre-sensitivity confidence is at most 1
whenever it classifies the region as not empty. -/
theorem impConfBase_notempty_ub (f : ImpFeatures) (h : (impConfBase f).1 = false) :
    (impConfBase f).2 ≤ 1 := by
  simp only [impConfBase] at h ⊢
  split_ifs at h ⊢ with h5 h3 h2
  · have ht : impTotalIndicators f = 2 := by omega
    dsimp only
    rw [ht]
    norm_num
  · exact min_le_left _ _

/-- Given nonnegative raw measurements (which variances, densities and
counts always are), the improved aggregator's pre-sensitivity confidence is
nonnegative on the not-empty branch. -/
theorem impConfBase_notempty_lb (f : ImpFeatures) (hcov : 0 ≤ f.coverageFrac)
    (htcv : 0 ≤ f.totalColorVariance) (hts : 0 ≤ f.textureStrength)
    (hed : 0 ≤ f.edgeDensity) (h : (impConfBase f).1 = false) :
    0 ≤ (impConfBase f).2 := by
  have hod : 0 ≤ impObjectDensity f := by
    refine le_min (by norm_num) ?_
    positivity
  have hcr : 0 ≤ impColorRichness f := by
    refine le_min (by norm_num) ?_
    rw [impMinColorDiversity]
    positivity
  have hts' : 0 ≤ impTextureScore f := by
    refine le_min (by norm_num) ?_
    rw [impMinTextureStrength]
    positivity
  have hss : 0 ≤ impStructureScore f := by
    rw [impStructureScore]
    positivity
  have hblend : 0 ≤ impFullnessBlend f := by
    rw [impFullnessBlend, impVideoCompressionFactor]
    positivity
  simp only [impConfBase] at h ⊢
  split_ifs at h ⊢ with h5 h3 h2
  · have : (0:ℚ) ≤ ((impTotalIndicators f - 2 : ℕ) : ℚ) * (1/10) := by positivity
    dsimp only
    linarith
  · exact le_min (by norm_num) hblend

/-- The YOLOv8m aggregator's pre-sensitivity confidence is at least 0.55
whenever it classifies the region as empty. -/
theorem y8ConfBase_empty_lb (g : Y8Features) (h : (y8ConfBase g).1 = true) :
    11/20 ≤ (y8ConfBase g).2 := by
  have hp20 : (0:ℚ) ≤ (y8PrimaryCount g : ℚ) * (1/20) := by positivity
  have hp25 : (0:ℚ) ≤ (y8PrimaryCount g : ℚ) * (1/25) := by positivity
  have hs100 : (0:ℚ) ≤ (y8SmktCount g : ℚ) * (3/100) := by positivity
  have hs25 : (0:ℚ) ≤ (y8SmktCount g : ℚ) * (1/25) := by positivity
  have hm1 : (0:ℚ) ≤ min (1/10) ((y8PrimaryCount g : ℚ) * (1/50)) :=
    le_min (by norm_num) (by positivity)
  have hm2 : (0:ℚ) ≤
      min (3/20) (((y8PrimaryCount g + y8SmktCount g - 4 : ℕ) : ℚ) * (1/25)) :=
    le_min (by norm_num) (by positivity)
  have hc1 : (0:ℚ) ≤ ((y8PrimaryCount g - 3 : ℕ) : ℚ) * (1/20) := by positivity
  have hc2 : (0:ℚ) ≤ ((y8PrimaryCount g - 3 : ℕ) : ℚ) * (1/25) := by positivity
  have hc3 : (0:ℚ) ≤ ((y8PrimaryCount g + y8SmktCount g - 3 : ℕ) : ℚ) * (1/10) := by
    positivity
  have hc4 : (0:ℚ) ≤ ((y8PrimaryCount g + y8SmktCount g - 2 : ℕ) : ℚ) * (1/10) := by
    positivity
  simp only [y8ConfBase] at h ⊢
  split_ifs at h ⊢ <;> dsimp only <;> linarith

/-- The YOLOv8m aggregator's pre-sensitivity confidence is nonnegative on
the not-empty branch (both branches are `max` with a positive floor). -/
theorem y8ConfBase_notempty_lb (g : Y8Features) (h : (y8ConfBase g).1 = false) :
    0 ≤ (y8ConfBase g).2 := by
  simp only [y8ConfBase] at h ⊢
  split_ifs at h ⊢ <;>
    exact le_trans (by norm_num) (le_max_left _ _)

/-- Given nonnegative raw measurements, the YOLOv8m aggregator's
pre-sensitivity confidence is at most 1 on the not-empty branch. -/
theorem y8ConfBase_notempty_ub (g : Y8Features) (hcov : 0 ≤ g.coverageFrac)
    (hcr : 0 ≤ g.colorRichnessRaw) (hlap : 0 ≤ g.laplacianVar)
    (hsob : 0 ≤ g.sobelMean) (hycov : 0 ≤ g.yolo.coverageFrac)
    (h : (y8ConfBase g).1 = false) : (y8ConfBase g).2 ≤ 1 := by
  have hod : 0 ≤ y8ObjectDensity g := by
    have h1 : (0:ℚ) ≤ min 1 ((g.meaningfulObjectCount : ℚ) * (1/5) + g.coverageFrac * 2) :=
      le_min (by norm_num) (by positivity)
    have h2 : (0:ℚ) ≤
        min 1 ((g.yolo.productCount : ℚ) * (3/10) + g.yolo.coverageFrac * (3/2)) :=
      le_min (by norm_num) (by positivity)
    simp only [y8ObjectDensity]
    split_ifs <;> linarith
  have hcr' : 0 ≤ y8ColorRichness g := le_min (by norm_num) hcr
  have hts : 0 ≤ y8TextureScore g := le_min (by norm_num) (by positivity)
  have hss : (0:ℚ) ≤ (y8StructureScore g : ℚ) / 5 := by positivity
  have hfa : 0 ≤ y8FullnessAvailable g := by
    have hboost : (0:ℚ) ≤ min (2/5) ((g.yolo.productCount : ℚ) * (3/25)) :=
      le_min (by norm_num) (by positivity)
    refine le_min (by norm_num) ?_
    have : (0:ℚ) ≤ g.yolo.coverageFrac * (5/2) := by positivity
    nlinarith
  have htf : 0 ≤ y8TraditionalFullness g := by
    rw [y8TraditionalFullness]
    nlinarith
  simp only [y8ConfBase] at h ⊢
  split_ifs at h ⊢ <;>
    refine max_le (by norm_num) (by nlinarith)

/-- The `isEmpty` flag of the improved aggregator is the band decision,
independent of the sensitivity. -/
theorem impCalc_isEmpty (f : ImpFeatures) (s : ℚ) :
    (impCalcConfidence f s).isEmpty = (impConfBase f).1 := rfl

/-- The returned confidence of the improved aggregator is the band
confidence under the sensitivity transform. -/
theorem impCalc_ec (f : ImpFeatures) (s : ℚ) :
    (impCalcConfidence f s).emptyConfidence =
      (if (impConfBase f).1 then min 1 ((impConfBase f).2 * (1 + s * (3/10)))
       else max 0 ((impConfBase f).2 * (2 - s))) := rfl

/-- The returned fullness score of the improved aggregator in terms of the
returned confidence. -/
theorem impCalc_fs (f : ImpFeatures) (s : ℚ) :
    (impCalcConfidence f s).fullnessScore =
      (if (impConfBase f).1 then 1 - (impCalcConfidence f s).emptyConfidence
       else (impCalcConfidence f s).emptyConfidence) := rfl

/-- The `isEmpty` flag of the YOLOv8m aggregator is the band decision,
independent of the sensitivity. -/
theorem y8Calc_isEmpty (g : Y8Features) (s : ℚ) :
    (y8CalcConfidence g s).isEmpty = (y8ConfBase g).1 := rfl

/-- The returned confidence of the YOLOv8m aggregator is the band
confidence under the sensitivity transform. -/
theorem y8Calc_ec (g : Y8Features) (s : ℚ) :
    (y8CalcConfidence g s).emptyConfidence =
      (if (y8ConfBase g).1 then min 1 ((y8ConfBase g).2 * (1 + s * (1/5)) + 3/25)
       else max 0 ((y8ConfBase g).2 * (2 - s))) := rfl

/-- The returned fullness score of the YOLOv8m aggregator in terms of the
returned confidence. -/
theorem y8Calc_fs (g : Y8Features) (s : ℚ) :
    (y8CalcConfidence g s).fullnessScore =
      (if (y8ConfBase g).1 then 1 - (y8CalcConfidence g s).emptyConfidence
       else (y8CalcConfidence g s).emptyConfidence) := rfl

/-- The detection loop of `_perform_yolo_detection`, expressed on an
arbitrary accumulator: it adds exactly the filtered boxes' count and
areas. -/
theorem y8Fold_filter (boxes : List YoloBox) : ∀ (c : ℕ) (a : ℚ),
    boxes.foldl
      (fun acc b => if y8IsProductBox b then (acc.1 + 1, acc.2 + yoloBoxArea b) else acc)
      (c, a) =
    (c + (boxes.filter y8IsProductBox).length,
     a + ((boxes.filter y8IsProductBox).map yoloBoxArea).sum) := by
  induction boxes with
  | nil => intro c a; simp
  | cons b bs ih =>
    intro c a
    by_cases hb : y8IsProductBox b
    · rw [List.foldl_cons, if_pos hb, List.filter_cons_of_pos hb, ih]
      rw [Prod.mk.injEq]
      constructor
      · simp only [List.length_cons]
        omega
      · simp only [List.map_cons, List.sum_cons]
        ring
    · rw [List.foldl_cons, if_neg hb, List.filter_cons_of_neg (by simpa using hb), ih]

/-- The alert gate never changes the seen-section set. -/
theorem impSTA_seen (st : ImpState) (n : String) (t : ℚ) (c : ImpConfData)
    (sb : ImpStab) (a : String) :
    ((impShouldTriggerAlert st n t c sb a).2).seen = st.seen := by
  rw [impShouldTriggerAlert]
  split_ifs <;> rfl

/-- The alert gate never changes the histories. -/
theorem impSTA_history (st : ImpState) (n : String) (t : ℚ) (c : ImpConfData)
    (sb : ImpStab) (a : String) :
    ((impShouldTriggerAlert st n t c sb a).2).history = st.history := by
  rw [impShouldTriggerAlert]
  split_ifs <;> rfl

/-- The alert gate never touches another section's cooldown stamp. -/
theorem impSTA_cooldown_other (st : ImpState) (n : String) (t : ℚ) (c : ImpConfData)
    (sb : ImpStab) (a : String) (m : String) (hm : m ≠ n) :
    ((impShouldTriggerAlert st n t c sb a).2).cooldown m = st.cooldown m := by
  rw [impShouldTriggerAlert]
  split_ifs <;> simp [hm]

/-- When the alert fires, the section's cooldown stamp becomes the call
timestamp, and the previous stamp was at least `cooldown_time` in the
past. -/
theorem impSTA_fire (st : ImpState) (n : String) (t : ℚ) (c : ImpConfData)
    (sb : ImpStab) (a : String)
    (h : (impShouldTriggerAlert st n t c sb a).1 = true) :
    ((impShouldTriggerAlert st n t c sb a).2).cooldown n = t ∧
      st.cooldown n + impCooldownTime ≤ t := by
  rw [impShouldTriggerAlert] at h ⊢
  split_ifs at h ⊢ with h1 h2 h3 h4
  constructor
  · simp
  · have := not_lt.mp h4
    linarith

/-- When the alert does not fire, the state is unchanged. -/
theorem impSTA_nofire (st : ImpState) (n : String) (t : ℚ) (c : ImpConfData)
    (sb : ImpStab) (a : String)
    (h : (impShouldTriggerAlert st n t c sb a).1 = false) :
    (impShouldTriggerAlert st n t c sb a).2 = st := by
  rw [impShouldTriggerAlert] at h ⊢
  split_ifs at h ⊢ <;> rfl

/-- The analysed section is seen after initialisation. -/
theorem impInitSection_mem (st : ImpState) (n : String) :
    n ∈ (impInitSection st n).seen := by
  rw [impInitSection]
  split_ifs with h
  · exact h
  · exact List.mem_cons_self _ _

/-- Initialisation only grows the seen-section set. -/
theorem impInitSection_mem_mono (st : ImpState) (n m : String) (h : m ∈ st.seen) :
    m ∈ (impInitSection st n).seen := by
  rw [impInitSection]
  split_ifs with h2
  · exact h
  · exact List.mem_cons_of_mem _ h

/-- Initialisation keeps the cooldown stamp of any already-seen section. -/
theorem impInitSection_cooldown (st : ImpState) (n m : String) (hm : m ∈ st.seen) :
    (impInitSection st n).cooldown m = st.cooldown m := by
  rw [impInitSection]
  split_ifs with h2
  · rfl
  · by_cases hmn : m = n
    · exact absurd (hmn ▸ hm) h2
    · simp [hmn]

/-- Initialisation keeps the history of any already-seen section. -/
theorem impInitSection_history (st : ImpState) (n m : String) (hm : m ∈ st.seen) :
    (impInitSection st n).history m = st.history m := by
  rw [impInitSection]
  split_ifs with h2
  · rfl
  · by_cases hmn : m = n
    · exact absurd (hmn ▸ hm) h2
    · simp [hmn]

/-- The history update step keeps the cooldown map and the seen set. -/
theorem impSAR_cooldown (st : ImpState) (r : ImpRoi) (n : String) (t : ℚ) :
    (impStateAfterRecord st r n t).cooldown =
      (impInitSection { st with frameCount := st.frameCount + 1 } n).cooldown := rfl

/-- The history update step keeps the seen set. -/
theorem impSAR_seen (st : ImpState) (r : ImpRoi) (n : String) (t : ℚ) :
    (impStateAfterRecord st r n t).seen =
      (impInitSection { st with frameCount := st.frameCount + 1 } n).seen := rfl

/-- Both the alert flag and the next state of the success path are those of
the embedded `_should_trigger_alert` call. -/
theorem impSuccess_alert (st : ImpState) (r : ImpRoi) (n : String) (t : ℚ) :
    (impAnalyzeSuccess st r n t).1.shouldAlert = (impAlertCall st r n t).1 ∧
      (impAnalyzeSuccess st r n t).2 = (impAlertCall st r n t).2 :=
  ⟨rfl, rfl⟩

/-- Pushing onto a history within the capacity bound stays within the
bound. -/
theorem impPushHistory_length_le (h : List ImpRecord) (r : ImpRecord)
    (hle : h.length ≤ impHistoryLength) :
    (impPushHistory h r).length ≤ impHistoryLength := by
  simp only [impPushHistory]
  split_ifs with hgt
  · simp only [List.length_drop, List.length_append, List.length_singleton]
    omega
  · simp only [List.length_append, List.length_singleton]
    simp only [List.length_append, List.length_singleton, not_lt] at hgt
    omega

/-- Pushing onto a full history evicts exactly the oldest record. -/
theorem impPushHistory_evict (h : List ImpRecord) (r : ImpRecord)
    (hfull : h.length = impHistoryLength) :
    impPushHistory h r = h.drop 1 ++ [r] := by
  simp only [impPushHistory]
  rw [if_pos (by simp [hfull, impHistoryLength]),
    List.drop_append_of_le_length (by rw [hfull, impHistoryLength]; norm_num)]

/-- Facts about one `analyze_shelf_region` call whose result fired the
alert: the analysed section's cooldown stamp becomes the call timestamp,
the section is seen afterwards, and if it was already seen the previous
stamp is at least `cooldown_time` older. -/
theorem impAnalyze_fire_facts (st : ImpState) (roi : Option ImpRoi) (name : String)
    (t : ℚ) (h : (impAnalyzeShelfRegion st roi name t).1.shouldAlert = true) :
    (impAnalyzeShelfRegion st roi name t).2.cooldown name = t ∧
      name ∈ (impAnalyzeShelfRegion st roi name t).2.seen ∧
      (name ∈ st.seen → st.cooldown name + impCooldownTime ≤ t) := by
  match roi with
  | none => exact absurd h (by simp [impAnalyzeShelfRegion, impCreateErrorResult])
  | some r =>
    by_cases hs : r.height < 50 ∨ r.width < 50
    · rw [impAnalyzeShelfRegion, if_pos hs] at h
      exact absurd h (by simp [impCreateErrorResult])
    · rw [impAnalyzeShelfRegion, if_neg hs] at h ⊢
      rw [(impSuccess_alert st r name t).1] at h
      rw [(impSuccess_alert st r name t).2]
      rw [impAlertCall] at h ⊢
      have hfire := impSTA_fire _ _ _ _ _ _ h
      refine ⟨hfire.1, ?_, fun hseen => ?_⟩
      · rw [impSTA_seen, impSAR_seen]
        exact impInitSection_mem _ _
      · have hcd : (impStateAfterRecord st r name t).cooldown name = st.cooldown name := by
          rw [impSAR_cooldown]
          exact impInitSection_cooldown _ _ _ hseen
        have := hfire.2
        rw [hcd] at this
        exact this

/-- Facts about one `analyze_shelf_region` call at a section `m` that this
call did not fire for: the cooldown stamp of `m` is unchanged and `m` stays
seen. -/
theorem impAnalyze_nofire_facts (st : ImpState) (roi : Option ImpRoi) (name : String)
    (t : ℚ) (m : String)
    (h : (impAnalyzeShelfRegion st roi name t).1.shouldAlert = false ∨ m ≠ name)
    (hm : m ∈ st.seen) :
    (impAnalyzeShelfRegion st roi name t).2.cooldown m = st.cooldown m ∧
      m ∈ (impAnalyzeShelfRegion st roi name t).2.seen := by
  match roi with
  | none => exact ⟨rfl, hm⟩
  | some r =>
    by_cases hs : r.height < 50 ∨ r.width < 50
    · rw [impAnalyzeShelfRegion, if_pos hs]
      exact ⟨rfl, hm⟩
    · rw [impAnalyzeShelfRegion, if_neg hs] at h ⊢
      have hseen2 : m ∈ (impStateAfterRecord st r name t).seen := by
        rw [impSAR_seen]
        exact impInitSection_mem_mono _ _ _ hm
      have hcd2 : (impStateAfterRecord st r name t).cooldown m = st.cooldown m := by
        rw [impSAR_cooldown]
        exact impInitSection_cooldown _ _ _ hm
      rw [(impSuccess_alert st r name t).2]
      rw [impAlertCall]
      rcases h with h | h
      · rw [(impSuccess_alert st r name t).1, impAlertCall] at h
        rw [impSTA_nofire _ _ _ _ _ _ h]
        exact ⟨hcd2, hseen2⟩
      · rw [impSTA_cooldown_other _ _ _ _ _ _ _ h, impSTA_seen]
        exact ⟨hcd2, hseen2⟩

/-- One `analyze_shelf_region` call keeps every section's history within
the capacity bound. -/
theorem impAnalyze_history_le (st : ImpState) (roi : Option ImpRoi) (name : String)
    (t : ℚ) (hinv : ∀ m, (st.history m).length ≤ impHistoryLength) :
    ∀ m, ((impAnalyzeShelfRegion st roi name t).2.history m).length ≤ impHistoryLength := by
  intro m
  match roi with
  | none => exact hinv m
  | some r =>
    by_cases hs : r.height < 50 ∨ r.width < 50
    · rw [impAnalyzeShelfRegion, if_pos hs]
      exact hinv m
    · rw [impAnalyzeShelfRegion, if_neg hs]
      rw [(impSuccess_alert st r name t).2, impAlertCall]
      rw [impSTA_history]
      have hinit : ∀ k, ((impInitSection { st with frameCount := st.frameCount + 1 }
          name).history k).length ≤ impHistoryLength := by
        intro k
        rw [impInitSection]
        split_ifs with h2
        · exact hinv k
        · by_cases hkn : k = name
          · simp [hkn]
          · simpa [hkn] using hinv k
      show ((impRecordHistory _ name _).history m).length ≤ impHistoryLength
      rw [impRecordHistory]
      by_cases hmn : m = name
      · simp only [hmn, if_pos rfl]
        exact impPushHistory_length_le _ _ (hinit name)
      · simpa [hmn] using hinit m

/-- Running any call sequence from a state whose histories are within the
capacity bound keeps them within the bound. -/
theorem impRunState_history_le (calls : List ImpCall) : ∀ (st : ImpState),
    (∀ m, (st.history m).length ≤ impHistoryLength) →
    ∀ m, ((impRunState st calls).history m).length ≤ impHistoryLength := by
  induction calls with
  | nil => intro st h m; exact h m
  | cons c cs ih =>
    intro st h m
    exact ih _ (impAnalyze_history_le st c.roi c.shelfName c.timestamp h) m

/-- The fired timestamps of a trace form a chain with gaps of at least
`cooldown_time`; when the section is already seen, prefixing the stored
cooldown stamp keeps it a chain. -/
theorem impFired_chain (sectionName : String) : ∀ (calls : List ImpCall) (st : ImpState),
    List.Chain' (fun a b => a + impCooldownTime ≤ b)
      (impFiredTimes sectionName (impRunTrace st calls)) ∧
    (sectionName ∈ st.seen →
      List.Chain' (fun a b => a + impCooldownTime ≤ b)
        (st.cooldown sectionName :: impFiredTimes sectionName (impRunTrace st calls))) := by
  intro calls
  induction calls with
  | nil =>
    intro st
    exact ⟨by simp [impRunTrace, impFiredTimes], fun _ => by
      simp [impRunTrace, impFiredTimes]⟩
  | cons c cs ih =>
    intro st
    have htr : impRunTrace st (c :: cs) =
        (c, (impAnalyzeShelfRegion st c.roi c.shelfName c.timestamp).1) ::
          impRunTrace (impAnalyzeShelfRegion st c.roi c.shelfName c.timestamp).2 cs := rfl
    rw [htr]
    by_cases hF : c.shelfName = sectionName ∧
        (impAnalyzeShelfRegion st c.roi c.shelfName c.timestamp).1.shouldAlert
    · obtain ⟨hcool, hseen2, himp⟩ :=
        impAnalyze_fire_facts st c.roi c.shelfName c.timestamp hF.2
      have hfts : impFiredTimes sectionName
            ((c, (impAnalyzeShelfRegion st c.roi c.shelfName c.timestamp).1) ::
              impRunTrace (impAnalyzeShelfRegion st c.roi c.shelfName c.timestamp).2 cs) =
          c.timestamp :: impFiredTimes sectionName
            (impRunTrace (impAnalyzeShelfRegion st c.roi c.shelfName c.timestamp).2 cs) := by
        simp only [impFiredTimes]
        rw [if_pos hF]
      rw [hfts]
      have ihp := ih (impAnalyzeShelfRegion st c.roi c.shelfName c.timestamp).2
      have hseenP : sectionName ∈
          (impAnalyzeShelfRegion st c.roi c.shelfName c.timestamp).2.seen := hF.1 ▸ hseen2
      have hchain2 := ihp.2 hseenP
      have hcool' : (impAnalyzeShelfRegion st c.roi c.shelfName c.timestamp).2.cooldown
          sectionName = c.timestamp := hF.1 ▸ hcool
      rw [hcool'] at hchain2
      refine ⟨hchain2, fun hseen0 => ?_⟩
      refine List.chain'_cons.mpr ⟨?_, hchain2⟩
      have := himp (hF.1 ▸ hseen0)
      exact hF.1 ▸ this
    · have hfts : impFiredTimes sectionName
            ((c, (impAnalyzeShelfRegion st c.roi c.shelfName c.timestamp).1) ::
              impRunTrace (impAnalyzeShelfRegion st c.roi c.shelfName c.timestamp).2 cs) =
          impFiredTimes sectionName
            (impRunTrace (impAnalyzeShelfRegion st c.roi c.shelfName c.timestamp).2 cs) := by
        simp only [impFiredTimes]
        rw [if_neg hF]
      rw [hfts]
      have ihp := ih (impAnalyzeShelfRegion st c.roi c.shelfName c.timestamp).2
      refine ⟨ihp.1, fun hseen0 => ?_⟩
      have hOr : (impAnalyzeShelfRegion st c.roi c.shelfName c.timestamp).1.shouldAlert
          = false ∨ sectionName ≠ c.shelfName := by
        by_cases hn : c.shelfName = sectionName
        · rcases Bool.eq_false_or_eq_true
            (impAnalyzeShelfRegion st c.roi c.shelfName c.timestamp).1.shouldAlert with
            halert | halert
          · exact absurd ⟨hn, halert⟩ hF
          · exact Or.inl halert
        · exact Or.inr fun hEq => hn hEq.symm
      obtain ⟨hcd, hseen⟩ :=
        impAnalyze_nofire_facts st c.roi c.shelfName c.timestamp sectionName hOr hseen0
      have := ihp.2 hseen
      rw [hcd] at this
      exact this

/-! ## Claim theorems -/

/-- C10: in every successful (non-error) analysis result the
`fullness_score` field is determined by the other two fields:
`1 − empty_confidence` when `is_empty` and `empty_confidence` otherwise,
for both the improved and the YOLOv8m confidence aggregators and at the
`analyze_shelf_region` level of the improved detector. -/
theorem c10_fullness_determined :
    (∀ (f : ImpFeatures) (s : ℚ),
      (impCalcConfidence f s).fullnessScore =
        (if (impCalcConfidence f s).isEmpty then 1 - (impCalcConfidence f s).emptyConfidence
         else (impCalcConfidence f s).emptyConfidence)) ∧
    (∀ (f : Y8Features) (s : ℚ),
      (y8CalcConfidence f s).fullnessScore =
        (if (y8CalcConfidence f s).isEmpty then 1 - (y8CalcConfidence f s).emptyConfidence
         else (y8CalcConfidence f s).emptyConfidence)) ∧
    (∀ (st : ImpState) (r : ImpRoi) (name : String) (t : ℚ),
      ¬(r.height < 50 ∨ r.width < 50) →
        (impAnalyzeShelfRegion st (some r) name t).1.fullnessScore =
          (if (impAnalyzeShelfRegion st (some r) name t).1.isEmpty
           then 1 - (impAnalyzeShelfRegion st (some r) name t).1.confidence
           else (impAnalyzeShelfRegion st (some r) name t).1.confidence)) := by
  refine ⟨fun f s => rfl, fun f s => rfl, fun st r name t h => ?_⟩
  simp only [impAnalyzeShelfRegion, if_neg h]
  rfl

/-- Witness for C10 at a concrete 100×100 region. -/
theorem c10_fullness_determined_witness :
    ¬((100 : ℕ) < 50 ∨ (100 : ℕ) < 50) ∧
    (impAnalyzeShelfRegion impInitState
        (some ⟨100, 100, ⟨200, 1/2, 3, 1/10, 1/20, 800, 9, 12⟩⟩) "A" 1).1.fullnessScore =
      (if (impAnalyzeShelfRegion impInitState
            (some ⟨100, 100, ⟨200, 1/2, 3, 1/10, 1/20, 800, 9, 12⟩⟩) "A" 1).1.isEmpty
       then 1 - (impAnalyzeShelfRegion impInitState
            (some ⟨100, 100, ⟨200, 1/2, 3, 1/10, 1/20, 800, 9, 12⟩⟩) "A" 1).1.confidence
       else (impAnalyzeShelfRegion impInitState
            (some ⟨100, 100, ⟨200, 1/2, 3, 1/10, 1/20, 800, 9, 12⟩⟩) "A" 1).1.confidence) :=
  ⟨by decide, c10_fullness_determined.2.2 _ _ _ _ (by decide)⟩

/-- C4 (amended): `update_sensitivity` clamps to [0.1, 1.0] in
`ImprovedYOLODetector` and `EnhancedShelfDetector`, but to [0.1, 0.9] in
`YOLOv8mShelfDetector`; in each case the stored sensitivity field that every
subsequent confidence calculation reads is set to the clamped value. -/
theorem c4_sensitivity_clamp (st : ImpState) (y8st : Y8State) (v : ℚ) :
    (impUpdateSensitivity st v).sensitivity = specSensitivityClamp v ∧
    enhUpdateSensitivity v = specSensitivityClamp v ∧
    (y8UpdateSensitivity y8st v).sensitivity = max (1/10) (min (9/10) v) :=
  ⟨rfl, rfl, rfl⟩

/-- C4 counterexample: `YOLOv8mShelfDetector.update_sensitivity(1.0)` stores
0.9, not the claimed clamp of 1.0 into [0.1, 1.0]. -/
theorem c4_counterexample :
    (y8UpdateSensitivity y8InitState 1).sensitivity ≠ specSensitivityClamp 1 := by
  norm_num [y8UpdateSensitivity, y8InitState, specSensitivityClamp, min_def, max_def]

/-- C1 (amended): a missing region or one with either dimension below the
50-pixel minimum deterministically yields the canned error result without
running any extractor (the result does not depend on the region's
measurements and the detector state is untouched); for
`ImprovedYOLODetector` that result has `is_empty=True, confidence=1.0`, but
for `YOLOv8mShelfDetector` it has `is_empty=False, confidence=0.0`. -/
theorem c1_min_size_rejection :
    (∀ (st : ImpState) (r : ImpRoi) (name : String) (t : ℚ),
      r.height < 50 ∨ r.width < 50 →
        impAnalyzeShelfRegion st (some r) name t = (impCreateErrorResult st t, st) ∧
        (impCreateErrorResult st t).isEmpty = true ∧
        (impCreateErrorResult st t).confidence = 1) ∧
    (∀ (st : ImpState) (name : String) (t : ℚ),
      impAnalyzeShelfRegion st none name t = (impCreateErrorResult st t, st)) ∧
    (∀ (st : Y8State) (r : Y8Roi) (name : String) (t : ℚ),
      r.height < 50 ∨ r.width < 50 →
        y8AnalyzeShelfRegion st (some r) name t = (y8CreateErrorResult, st) ∧
        y8CreateErrorResult.isEmpty = false ∧
        y8CreateErrorResult.confidence = 0) ∧
    (∀ (st : Y8State) (name : String) (t : ℚ),
      y8AnalyzeShelfRegion st none name t = (y8CreateErrorResult, st)) := by
  refine ⟨fun st r name t h => ?_, fun st name t => rfl,
          fun st r name t h => ?_, fun st name t => rfl⟩
  · exact ⟨by simp only [impAnalyzeShelfRegion, if_pos h], rfl, rfl⟩
  · exact ⟨by simp only [y8AnalyzeShelfRegion, if_pos h], rfl, rfl⟩

/-- Witness for C1 at concrete 10×10 regions. -/
theorem c1_min_size_rejection_witness :
    ((10 : ℕ) < 50 ∨ (10 : ℕ) < 50) ∧
    impAnalyzeShelfRegion impInitState
        (some ⟨10, 10, ⟨50, 9/10, 0, 0, 1/100, 100, 2, 1⟩⟩) "A" 1 =
      (impCreateErrorResult impInitState 1, impInitState) ∧
    y8AnalyzeShelfRegion y8InitState
        (some ⟨10, 10, ⟨50, 9/10, 0, 0, 1/100, 100, 1/10, 5, 1, 1, 0, ⟨0, 0, true⟩⟩⟩) "A" 1 =
      (y8CreateErrorResult, y8InitState) :=
  ⟨by decide,
   (c1_min_size_rejection.1 impInitState _ "A" 1 (by decide)).1,
   (c1_min_size_rejection.2.2.1 y8InitState _ "A" 1 (by decide)).1⟩

/-- C1 counterexample: on a 10×10 region the YOLOv8m detector returns
`is_empty=False` with confidence 0.0, not the claimed
`is_empty=True, confidence=1.0`. -/
theorem c1_counterexample :
    ¬((y8AnalyzeShelfRegion y8InitState
          (some ⟨10, 10, ⟨50, 9/10, 0, 0, 1/100, 100, 1/10, 5, 1, 1, 0, ⟨0, 0, true⟩⟩⟩)
          "A" 1).1.isEmpty = true ∧
      (y8AnalyzeShelfRegion y8InitState
          (some ⟨10, 10, ⟨50, 9/10, 0, 0, 1/100, 100, 1/10, 5, 1, 1, 0, ⟨0, 0, true⟩⟩⟩)
          "A" 1).1.confidence = 1) := by
  intro hcontra
  have h : (y8AnalyzeShelfRegion y8InitState
      (some ⟨10, 10, ⟨50, 9/10, 0, 0, 1/100, 100, 1/10, 5, 1, 1, 0, ⟨0, 0, true⟩⟩⟩)
      "A" 1).1.isEmpty = false := rfl
  rw [hcontra.1] at h
  exact absurd h (by decide)

/-- C8: an analysis result with `is_empty = false` never alerts, in all
three detector variants' alert gates and at the `analyze_shelf_region`
level of the improved and YOLOv8m detectors. -/
theorem c8_no_alert_when_not_empty :
    (∀ (st : ImpState) (n : String) (t : ℚ) (c : ImpConfData) (sb : ImpStab) (a : String),
      c.isEmpty = false → (impShouldTriggerAlert st n t c sb a).1 = false) ∧
    (∀ (st : Y8State) (n : String) (c : Y8ConfData) (t : ℚ),
      c.isEmpty = false → (y8ShouldTriggerAlert st n c t).1 = false) ∧
    (∀ (cd t : ℚ) (e : Bool) (conf : ℚ) (stab : ℕ),
      e = false → (enhShouldAlert cd t e conf stab).1 = false) ∧
    (∀ (st : ImpState) (roi : Option ImpRoi) (n : String) (t : ℚ),
      (impAnalyzeShelfRegion st roi n t).1.isEmpty = false →
        (impAnalyzeShelfRegion st roi n t).1.shouldAlert = false) ∧
    (∀ (st : Y8State) (roi : Option Y8Roi) (n : String) (t : ℚ),
      (y8AnalyzeShelfRegion st roi n t).1.isEmpty = false →
        (y8AnalyzeShelfRegion st roi n t).1.shouldAlert = false) := by
  have himp : ∀ (st : ImpState) (n : String) (t : ℚ) (c : ImpConfData) (sb : ImpStab)
      (a : String), c.isEmpty = false → (impShouldTriggerAlert st n t c sb a).1 = false := by
    intro st n t c sb a h
    simp [impShouldTriggerAlert, h]
  have hy8 : ∀ (st : Y8State) (n : String) (c : Y8ConfData) (t : ℚ),
      c.isEmpty = false → (y8ShouldTriggerAlert st n c t).1 = false := by
    intro st n c t h
    simp [y8ShouldTriggerAlert, h]
  refine ⟨himp, hy8, ?_, ?_, ?_⟩
  · intro cd t e conf stab h
    simp [enhShouldAlert, h]
  · intro st roi n t h
    match roi with
    | none => simp [impAnalyzeShelfRegion, impCreateErrorResult] at h
    | some r =>
      by_cases hs : r.height < 50 ∨ r.width < 50
      · rw [impAnalyzeShelfRegion, if_pos hs] at h
        simp [impCreateErrorResult] at h
      · rw [impAnalyzeShelfRegion, if_neg hs] at h ⊢
        exact himp _ _ _ _ _ _ h
  · intro st roi n t h
    match roi with
    | none => exact rfl
    | some r =>
      by_cases hs : r.height < 50 ∨ r.width < 50
      · rw [y8AnalyzeShelfRegion, if_pos hs]
        rfl
      · rw [y8AnalyzeShelfRegion, if_neg hs] at h ⊢
        exact hy8 _ _ _ _ h

/-- Witness for C8 at a concrete non-empty classification. -/
theorem c8_no_alert_when_not_empty_witness :
    (false = false) ∧ (enhShouldAlert 0 5 false 1 5).1 = false :=
  ⟨rfl, c8_no_alert_when_not_empty.2.2.1 0 5 false 1 5 rfl⟩

/-- C2 counterexample: for the sensitivity 0.1 (the bottom of the valid
[0.1, 1.0] range) and a busy region (five objects, full coverage, rich
colour, strong texture and edges — zero empty indicators), the improved
aggregator returns `empty_confidence = fullness_score = 1.615 > 1`: the
`(2 − sensitivity)` dampening branch has no upper clamp. -/
theorem c2_counterexample :
    ((1:ℚ)/10 ≤ 1/10 ∧ (1:ℚ)/10 ≤ 1) ∧
    1 < (impCalcConfidence ⟨2000, 1/10, 5, 1, 1/2, 2000, 100, 0⟩ (1/10)).emptyConfidence ∧
    1 < (impCalcConfidence ⟨2000, 1/10, 5, 1, 1/2, 2000, 100, 0⟩ (1/10)).fullnessScore := by
  refine ⟨⟨le_refl _, by norm_num⟩, ?_, ?_⟩ <;>
    norm_num [impCalcConfidence, impConfBase, impTotalIndicators, impPrimaryIndicators,
      impSupermarketIndicators, impFullnessBlend, impObjectDensity, impColorRichness,
      impTextureScore, impStructureScore, impUniformityThreshold, impMinColorDiversity,
      impMinTextureStrength, impEdgeDensityThreshold, impLightingVarianceThreshold,
      impVideoCompressionFactor, min_def, max_def]

/-- C2 (amended): for sensitivity in [0.1, 1.0] and nonnegative raw
measurements, both aggregators return `empty_confidence` and
`fullness_score` that are always nonnegative; on the `is_empty = true`
branch both lie in [0, 1], but on the `is_empty = false` branch they are
only bounded by `2 − sensitivity` (so the [0,1] contract holds there only
at sensitivity 1). -/
theorem c2_confidence_bounds (f : ImpFeatures) (g : Y8Features) (s : ℚ)
    (hs1 : 1/10 ≤ s) (hs2 : s ≤ 1)
    (hgcov : 0 ≤ g.coverageFrac) (hgcr : 0 ≤ g.colorRichnessRaw)
    (hglap : 0 ≤ g.laplacianVar) (hgsob : 0 ≤ g.sobelMean)
    (hgycov : 0 ≤ g.yolo.coverageFrac) :
    (0 ≤ (impCalcConfidence f s).emptyConfidence ∧
      0 ≤ (impCalcConfidence f s).fullnessScore) ∧
    ((impCalcConfidence f s).isEmpty = true →
      (impCalcConfidence f s).emptyConfidence ≤ 1 ∧
        (impCalcConfidence f s).fullnessScore ≤ 1) ∧
    ((impCalcConfidence f s).isEmpty = false →
      (impCalcConfidence f s).emptyConfidence ≤ 2 - s ∧
        (impCalcConfidence f s).fullnessScore ≤ 2 - s) ∧
    (0 ≤ (y8CalcConfidence g s).emptyConfidence ∧
      0 ≤ (y8CalcConfidence g s).fullnessScore) ∧
    ((y8CalcConfidence g s).isEmpty = true →
      (y8CalcConfidence g s).emptyConfidence ≤ 1 ∧
        (y8CalcConfidence g s).fullnessScore ≤ 1) ∧
    ((y8CalcConfidence g s).isEmpty = false →
      (y8CalcConfidence g s).emptyConfidence ≤ 2 - s ∧
        (y8CalcConfidence g s).fullnessScore ≤ 2 - s) := by
  have h2s : (0:ℚ) ≤ 2 - s := by linarith
  have hImp : (0 ≤ (impCalcConfidence f s).emptyConfidence ∧
      0 ≤ (impCalcConfidence f s).fullnessScore) ∧
      ((impCalcConfidence f s).isEmpty = true →
        (impCalcConfidence f s).emptyConfidence ≤ 1 ∧
          (impCalcConfidence f s).fullnessScore ≤ 1) ∧
      ((impCalcConfidence f s).isEmpty = false →
        (impCalcConfidence f s).emptyConfidence ≤ 2 - s ∧
          (impCalcConfidence f s).fullnessScore ≤ 2 - s) := by
    rcases (impConfBase f).1.eq_false_or_eq_true.symm with hb | hb
    · have hub := impConfBase_notempty_ub f hb
      have hecf : (impCalcConfidence f s).emptyConfidence =
          max 0 ((impConfBase f).2 * (2 - s)) := by
        rw [impCalc_ec, hb]
        simp
      have hfsf : (impCalcConfidence f s).fullnessScore =
          (impCalcConfidence f s).emptyConfidence := by
        rw [impCalc_fs, hb]
        simp
      have hle : (impCalcConfidence f s).emptyConfidence ≤ 2 - s := by
        rw [hecf]
        exact max_le h2s (mul_le_of_le_one_left h2s hub)
      refine ⟨⟨by rw [hecf]; exact le_max_left _ _,
              by rw [hfsf, hecf]; exact le_max_left _ _⟩,
        fun hT => ?_, fun _ => ⟨hle, by rw [hfsf]; exact hle⟩⟩
      rw [impCalc_isEmpty, hb] at hT
      exact absurd hT (by simp)
    · have hlb := impConfBase_empty_lb f hb
      have hx : 0 ≤ (impConfBase f).2 * (1 + s * (3/10)) :=
        mul_nonneg (by linarith) (by linarith)
      have hecf : (impCalcConfidence f s).emptyConfidence =
          min 1 ((impConfBase f).2 * (1 + s * (3/10))) := by
        rw [impCalc_ec, hb]
        simp
      have hfsf : (impCalcConfidence f s).fullnessScore =
          1 - (impCalcConfidence f s).emptyConfidence := by
        rw [impCalc_fs, hb]
        simp
      have h0 : 0 ≤ (impCalcConfidence f s).emptyConfidence := by
        rw [hecf]
        exact le_min (by norm_num) hx
      have h1 : (impCalcConfidence f s).emptyConfidence ≤ 1 := by
        rw [hecf]
        exact min_le_left _ _
      refine ⟨⟨h0, by rw [hfsf]; linarith⟩, fun _ => ⟨h1, by rw [hfsf]; linarith⟩,
        fun hF => ?_⟩
      rw [impCalc_isEmpty, hb] at hF
      exact absurd hF (by simp)
  have hY8 : (0 ≤ (y8CalcConfidence g s).emptyConfidence ∧
      0 ≤ (y8CalcConfidence g s).fullnessScore) ∧
      ((y8CalcConfidence g s).isEmpty = true →
        (y8CalcConfidence g s).emptyConfidence ≤ 1 ∧
          (y8CalcConfidence g s).fullnessScore ≤ 1) ∧
      ((y8CalcConfidence g s).isEmpty = false →
        (y8CalcConfidence g s).emptyConfidence ≤ 2 - s ∧
          (y8CalcConfidence g s).fullnessScore ≤ 2 - s) := by
    rcases (y8ConfBase g).1.eq_false_or_eq_true.symm with hb | hb
    · have hub := y8ConfBase_notempty_ub g hgcov hgcr hglap hgsob hgycov hb
      have hecf : (y8CalcConfidence g s).emptyConfidence =
          max 0 ((y8ConfBase g).2 * (2 - s)) := by
        rw [y8Calc_ec, hb]
        simp
      have hfsf : (y8CalcConfidence g s).fullnessScore =
          (y8CalcConfidence g s).emptyConfidence := by
        rw [y8Calc_fs, hb]
        simp
      have hle : (y8CalcConfidence g s).emptyConfidence ≤ 2 - s := by
        rw [hecf]
        exact max_le h2s (mul_le_of_le_one_left h2s hub)
      refine ⟨⟨by rw [hecf]; exact le_max_left _ _,
              by rw [hfsf, hecf]; exact le_max_left _ _⟩,
        fun hT => ?_, fun _ => ⟨hle, by rw [hfsf]; exact hle⟩⟩
      rw [y8Calc_isEmpty, hb] at hT
      exact absurd hT (by simp)
    · have hlb := y8ConfBase_empty_lb g hb
      have hx : 0 ≤ (y8ConfBase g).2 * (1 + s * (1/5)) + 3/25 := by
        have := mul_nonneg (show (0:ℚ) ≤ (y8ConfBase g).2 by linarith)
          (show (0:ℚ) ≤ 1 + s * (1/5) by linarith)
        linarith
      have hecf : (y8CalcConfidence g s).emptyConfidence =
          min 1 ((y8ConfBase g).2 * (1 + s * (1/5)) + 3/25) := by
        rw [y8Calc_ec, hb]
        simp
      have hfsf : (y8CalcConfidence g s).fullnessScore =
          1 - (y8CalcConfidence g s).emptyConfidence := by
        rw [y8Calc_fs, hb]
        simp
      have h0 : 0 ≤ (y8CalcConfidence g s).emptyConfidence := by
        rw [hecf]
        exact le_min (by norm_num) hx
      have h1 : (y8CalcConfidence g s).emptyConfidence ≤ 1 := by
        rw [hecf]
        exact min_le_left _ _
      refine ⟨⟨h0, by rw [hfsf]; linarith⟩, fun _ => ⟨h1, by rw [hfsf]; linarith⟩,
        fun hF => ?_⟩
      rw [y8Calc_isEmpty, hb] at hF
      exact absurd hF (by simp)
  exact ⟨hImp.1, hImp.2.1, hImp.2.2, hY8.1, hY8.2.1, hY8.2.2⟩

/-- Witness for C2 at sensitivity 0.5 with concrete feature measurements. -/
theorem c2_confidence_bounds_witness :
    ((1:ℚ)/10 ≤ 1/2 ∧ (1:ℚ)/2 ≤ 1) ∧
    (0 ≤ (impCalcConfidence ⟨200, 4/5, 1, 1/20, 1/100, 500, 5, 2⟩ (1/2)).emptyConfidence ∧
      0 ≤ (impCalcConfidence ⟨200, 4/5, 1, 1/20, 1/100, 500, 5, 2⟩ (1/2)).fullnessScore) :=
  ⟨⟨by norm_num, by norm_num⟩,
   (c2_confidence_bounds ⟨200, 4/5, 1, 1/20, 1/100, 500, 5, 2⟩
      ⟨100, 1/2, 0, 0, 1/100, 300, 1/4, 2, 1, 3, 1, ⟨0, 0, false⟩⟩ (1/2)
      (by norm_num) (by norm_num) (by norm_num) (by norm_num) (by norm_num)
      (by norm_num) (by norm_num)).1⟩

/-- C9: in `_perform_yolo_detection`, exactly the detections whose
lower-cased class name is in the product-class set and whose confidence
strictly exceeds the 0.20 threshold contribute to `product_count` and to
the accumulated detection area; appending any other detection changes
nothing; and `coverage_ratio` is the filtered boxes' total area divided by
the region area, clamped to 1 (0 for a zero-area region). -/
theorem c9_yolo_detection_filter (boxes : List YoloBox) (roiHeight roiWidth : ℕ) :
    ((y8PerformYoloDetection boxes roiHeight roiWidth).productCount =
      (boxes.filter y8IsProductBox).length) ∧
    (∀ b : YoloBox, y8IsProductBox b = true ↔
      (b.className.map Char.toLower ∈ y8ProductClasses ∧
        b.score > y8YoloConfidenceThreshold)) ∧
    (∀ b : YoloBox, y8IsProductBox b = false →
      y8PerformYoloDetection (boxes ++ [b]) roiHeight roiWidth =
        y8PerformYoloDetection boxes roiHeight roiWidth) ∧
    (0 < roiHeight * roiWidth →
      (y8PerformYoloDetection boxes roiHeight roiWidth).coverageFrac =
        min 1 (((boxes.filter y8IsProductBox).map yoloBoxArea).sum /
          ((roiHeight * roiWidth : ℕ) : ℚ))) := by
  have hfold := y8Fold_filter boxes 0 0
  have hcount : (y8PerformYoloDetection boxes roiHeight roiWidth).productCount =
      (boxes.filter y8IsProductBox).length := by
    simp only [y8PerformYoloDetection, hfold, Nat.zero_add]
  refine ⟨hcount, fun b => ?_, fun b hb => ?_, fun hpos => ?_⟩
  · simp [y8IsProductBox]
  · have hb' : ¬(y8IsProductBox b = true) := by simp [hb]
    simp only [y8PerformYoloDetection, List.foldl_append, List.foldl_cons, List.foldl_nil,
      if_neg hb']
  · have hc : (0:ℚ) < ((roiHeight * roiWidth : ℕ) : ℚ) := by
      exact_mod_cast hpos
    simp only [y8PerformYoloDetection, hfold, if_pos hc]
    norm_num

/-- Witness for C9 on a two-box detection list over a 100×100 region. -/
theorem c9_yolo_detection_filter_witness :
    0 < 100 * 100 ∧
    (y8PerformYoloDetection
        [⟨"bottle", 1/2, 0, 0, 30, 40⟩, ⟨"person", 9/10, 0, 0, 50, 50⟩]
        100 100).coverageFrac =
      min 1 (((([⟨"bottle", 1/2, 0, 0, 30, 40⟩, ⟨"person", 9/10, 0, 0, 50, 50⟩] :
            List YoloBox).filter y8IsProductBox).map yoloBoxArea).sum /
        ((100 * 100 : ℕ) : ℚ)) :=
  ⟨by decide,
   (c9_yolo_detection_filter
      [⟨"bottle", 1/2, 0, 0, 30, 40⟩, ⟨"person", 9/10, 0, 0, 50, 50⟩]
      100 100).2.2.2 (by decide)⟩

/-- C3: across any sequence of `analyze_shelf_region` calls on the improved
detector, from any starting state, any two calls whose results fired the
alert for the same section have caller-supplied timestamps at least
`cooldown_time` (1.5s) apart, pairwise and in order; and the YOLOv8m and
enhanced variants' alert gates enforce the same discipline (a firing call
stamps the cooldown with its timestamp and requires the previous stamp to
be at least their respective cooldown older). -/
theorem c3_cooldown_invariant :
    (∀ (st : ImpState) (calls : List ImpCall) (sectionName : String),
      List.Pairwise (fun a b => a + impCooldownTime ≤ b)
        (impFiredTimes sectionName (impRunTrace st calls))) ∧
    (∀ (st : Y8State) (n : String) (conf : Y8ConfData) (t : ℚ),
      (y8ShouldTriggerAlert st n conf t).1 = true →
        (y8ShouldTriggerAlert st n conf t).2.cooldown n = t ∧
          st.cooldown n + y8CooldownTime ≤ t) ∧
    (∀ (cooldownVal t : ℚ) (e : Bool) (conf : ℚ) (stab : ℕ),
      (enhShouldAlert cooldownVal t e conf stab).1 = true →
        (enhShouldAlert cooldownVal t e conf stab).2 = t ∧ cooldownVal + 2 ≤ t) := by
  refine ⟨fun st calls sectionName => ?_, fun st n conf t h => ?_,
    fun cooldownVal t e conf stab h => ?_⟩
  · have hch := (impFired_chain sectionName calls st).1
    haveI : IsTrans ℚ (fun a b => a + impCooldownTime ≤ b) :=
      ⟨by
        intro a b c hab hbc
        have hcd : (0:ℚ) ≤ impCooldownTime := by norm_num [impCooldownTime]
        show a + impCooldownTime ≤ c
        have hab' : a + impCooldownTime ≤ b := hab
        have hbc' : b + impCooldownTime ≤ c := hbc
        linarith⟩
    exact List.chain'_iff_pairwise.mp hch
  · rw [y8ShouldTriggerAlert] at h ⊢
    split_ifs at h ⊢ with h1 h2 h3
    constructor
    · simp
    · have := not_lt.mp h2
      linarith
  · rw [enhShouldAlert] at h ⊢
    split_ifs at h ⊢ with h1 h2 h3 h4
    exact ⟨rfl, by linarith [not_lt.mp h4]⟩

/-- Witness for C3 on the enhanced gate: a firing call (empty, confident,
stable, past cooldown) stamps the cooldown with its timestamp. -/
theorem c3_cooldown_invariant_witness :
    (enhShouldAlert 0 5 true 1 5).1 = true ∧
      (enhShouldAlert 0 5 true 1 5).2 = 5 ∧ (0:ℚ) + 2 ≤ 5 := by
  have hfire : (enhShouldAlert 0 5 true 1 5).1 = true := by
    norm_num [enhShouldAlert]
  exact ⟨hfire, c3_cooldown_invariant.2.2 0 5 true 1 5 hfire⟩

/-- C7: starting from a fresh improved detector, the retained per-section
history never exceeds the configured capacity (10) after any call sequence;
and appending to a full history evicts exactly the oldest record. -/
theorem c7_history_bound :
    (∀ (calls : List ImpCall) (sectionName : String),
      ((impRunState impInitState calls).history sectionName).length ≤ impHistoryLength) ∧
    (∀ (h : List ImpRecord) (r : ImpRecord), h.length = impHistoryLength →
      impPushHistory h r = h.drop 1 ++ [r]) :=
  ⟨fun calls sectionName =>
      impRunState_history_le calls impInitState (fun _ => by simp [impInitState]) sectionName,
   impPushHistory_evict⟩

/-- Witness for C7: pushing onto a full 10-record history evicts the
oldest record. -/
theorem c7_history_bound_witness :
    (List.replicate 10 (⟨0, true, 9/10, 1/10, "CRITICALLY_EMPTY", "CRITICAL", 1⟩ :
        ImpRecord)).length = impHistoryLength ∧
    impPushHistory
        (List.replicate 10 (⟨0, true, 9/10, 1/10, "CRITICALLY_EMPTY", "CRITICAL", 1⟩ :
          ImpRecord))
        ⟨1, false, 3/10, 3/10, "WELL_STOCKED", "NONE", 11⟩ =
      (List.replicate 10 (⟨0, true, 9/10, 1/10, "CRITICALLY_EMPTY", "CRITICAL", 1⟩ :
        ImpRecord)).drop 1 ++ [⟨1, false, 3/10, 3/10, "WELL_STOCKED", "NONE", 11⟩] :=
  ⟨by simp [impHistoryLength],
   c7_history_bound.2 _ _ (by simp [impHistoryLength])⟩

/-- C6: for a fixed region (fixed raw measurements, hence fixed indicators
and method scores), the classification is independent of the sensitivity;
raising the sensitivity never lowers the returned confidence when
`is_empty = true`, and never raises the fullness-side confidence (both the
`empty_confidence` and `fullness_score` fields, which coincide there) when
`is_empty = false` — for both aggregators. -/
theorem c6_sensitivity_monotone (f : ImpFeatures) (g : Y8Features) (s1 s2 : ℚ)
    (h12 : s1 ≤ s2)
    (hfcov : 0 ≤ f.coverageFrac) (hftcv : 0 ≤ f.totalColorVariance)
    (hfts : 0 ≤ f.textureStrength) (hfed : 0 ≤ f.edgeDensity) :
    ((impCalcConfidence f s1).isEmpty = (impCalcConfidence f s2).isEmpty) ∧
    ((impCalcConfidence f s1).isEmpty = true →
      (impCalcConfidence f s1).emptyConfidence ≤
        (impCalcConfidence f s2).emptyConfidence) ∧
    ((impCalcConfidence f s1).isEmpty = false →
      (impCalcConfidence f s2).emptyConfidence ≤
          (impCalcConfidence f s1).emptyConfidence ∧
        (impCalcConfidence f s2).fullnessScore ≤
          (impCalcConfidence f s1).fullnessScore) ∧
    ((y8CalcConfidence g s1).isEmpty = (y8CalcConfidence g s2).isEmpty) ∧
    ((y8CalcConfidence g s1).isEmpty = true →
      (y8CalcConfidence g s1).emptyConfidence ≤
        (y8CalcConfidence g s2).emptyConfidence) ∧
    ((y8CalcConfidence g s1).isEmpty = false →
      (y8CalcConfidence g s2).emptyConfidence ≤
          (y8CalcConfidence g s1).emptyConfidence ∧
        (y8CalcConfidence g s2).fullnessScore ≤
          (y8CalcConfidence g s1).fullnessScore) := by
  refine ⟨by rw [impCalc_isEmpty, impCalc_isEmpty], fun hT => ?_, fun hF => ?_,
    by rw [y8Calc_isEmpty, y8Calc_isEmpty], fun hT => ?_, fun hF => ?_⟩
  · rw [impCalc_isEmpty] at hT
    have hlb := impConfBase_empty_lb f hT
    rw [impCalc_ec, impCalc_ec, hT]
    simp only [if_true]
    exact min_le_min le_rfl (mul_le_mul_of_nonneg_left (by linarith) (by linarith))
  · rw [impCalc_isEmpty] at hF
    have hlb := impConfBase_notempty_lb f hfcov hftcv hfts hfed hF
    have key : (impCalcConfidence f s2).emptyConfidence ≤
        (impCalcConfidence f s1).emptyConfidence := by
      rw [impCalc_ec, impCalc_ec, hF]
      simp only [Bool.false_eq_true, if_false]
      exact max_le_max le_rfl (mul_le_mul_of_nonneg_left (by linarith) hlb)
    refine ⟨key, ?_⟩
    rw [impCalc_fs, impCalc_fs, hF]
    simpa using key
  · rw [y8Calc_isEmpty] at hT
    have hlb := y8ConfBase_empty_lb g hT
    rw [y8Calc_ec, y8Calc_ec, hT]
    simp only [if_true]
    exact min_le_min le_rfl
      (add_le_add_right (mul_le_mul_of_nonneg_left (by linarith) (by linarith)) _)
  · rw [y8Calc_isEmpty] at hF
    have hlb := y8ConfBase_notempty_lb g hF
    have key : (y8CalcConfidence g s2).emptyConfidence ≤
        (y8CalcConfidence g s1).emptyConfidence := by
      rw [y8Calc_ec, y8Calc_ec, hF]
      simp only [Bool.false_eq_true, if_false]
      exact max_le_max le_rfl (mul_le_mul_of_nonneg_left (by linarith) hlb)
    refine ⟨key, ?_⟩
    rw [y8Calc_fs, y8Calc_fs, hF]
    simpa using key

/-- Witness for C6 on a busy (not-empty) region, sensitivities 0.3 and
0.9. -/
theorem c6_sensitivity_monotone_witness :
    ((3:ℚ)/10 ≤ 9/10) ∧
    (impCalcConfidence ⟨2000, 1/10, 5, 1, 1/2, 2000, 100, 0⟩ (3/10)).isEmpty = false ∧
    (impCalcConfidence ⟨2000, 1/10, 5, 1, 1/2, 2000, 100, 0⟩ (9/10)).emptyConfidence ≤
      (impCalcConfidence ⟨2000, 1/10, 5, 1, 1/2, 2000, 100, 0⟩ (3/10)).emptyConfidence := by
  have hpre : (impCalcConfidence ⟨2000, 1/10, 5, 1, 1/2, 2000, 100, 0⟩ (3/10)).isEmpty
      = false := by
    norm_num [impCalc_isEmpty, impConfBase, impTotalIndicators, impPrimaryIndicators,
      impSupermarketIndicators, impUniformityThreshold, impMinColorDiversity,
      impMinTextureStrength, impEdgeDensityThreshold, impLightingVarianceThreshold]
  exact ⟨by norm_num, hpre,
    ((c6_sensitivity_monotone ⟨2000, 1/10, 5, 1, 1/2, 2000, 100, 0⟩
        ⟨100, 1/2, 0, 0, 1/100, 300, 1/4, 2, 1, 3, 1, ⟨0, 0, false⟩⟩ (3/10) (9/10)
        (by norm_num) (by norm_num) (by norm_num) (by norm_num) (by norm_num)).2.2.1
      hpre).1⟩

/-- C5 counterexample: with only two history records, one empty and the
most recent one non-empty, the improved detector reports a consistency
score of 2 (the history length), while the claimed formula (count of recent
records matching the most recent `is_empty`) gives 1. -/
theorem c5_counterexample :
    (impCalcStability
        [⟨0, true, 9/10, 1/10, "CRITICALLY_EMPTY", "CRITICAL", 1⟩,
         ⟨1, false, 3/10, 3/10, "WELL_STOCKED", "NONE", 2⟩]).consistencyScore ≠
      specConsistencyScore
        (([⟨0, true, 9/10, 1/10, "CRITICALLY_EMPTY", "CRITICAL", 1⟩,
           ⟨1, false, 3/10, 3/10, "WELL_STOCKED", "NONE", 2⟩] :
            List ImpRecord).map (fun r => r.isEmpty)) := by
  decide

/-- C5 (amended): once a section's history holds at least 3 records, the
consistency score equals the count of the most recent at-most-5 records
whose `is_empty` matches the most recent record's `is_empty`, capped at 5
(both in the improved and the enhanced detector); with fewer than 3 records
the code instead returns the history length. -/
theorem c5_stability_amended (h : List ImpRecord) :
    (3 ≤ h.length →
      (impCalcStability h).consistencyScore =
        specConsistencyScore (h.map (fun r => r.isEmpty))) ∧
    (h.length < 3 → (impCalcStability h).consistencyScore = h.length) ∧
    (∀ states : List Bool, 3 ≤ states.length →
      enhCalculateStability states = specConsistencyScore states) ∧
    (∀ states : List Bool, states.length < 3 →
      enhCalculateStability states = states.length) := by
  refine ⟨fun h3 => ?_, fun hlt => ?_, fun states h3 => ?_, fun states hlt => ?_⟩
  · rw [impCalcStability, if_neg (by omega), specConsistencyScore]
    simp only [listLastN_map]
  · rw [impCalcStability, if_pos hlt]
  · rw [enhCalculateStability, if_neg (by omega), specConsistencyScore]
  · rw [enhCalculateStability, if_pos hlt]

/-- Witness for C5 at concrete histories of length 3 and 2. -/
theorem c5_stability_amended_witness :
    (3 ≤ ([⟨0, true, 9/10, 1/10, "CRITICALLY_EMPTY", "CRITICAL", 1⟩,
           ⟨1, true, 9/10, 1/10, "CRITICALLY_EMPTY", "CRITICAL", 2⟩,
           ⟨2, false, 3/10, 3/10, "WELL_STOCKED", "NONE", 3⟩] : List ImpRecord).length) ∧
    (impCalcStability
        [⟨0, true, 9/10, 1/10, "CRITICALLY_EMPTY", "CRITICAL", 1⟩,
         ⟨1, true, 9/10, 1/10, "CRITICALLY_EMPTY", "CRITICAL", 2⟩,
         ⟨2, false, 3/10, 3/10, "WELL_STOCKED", "NONE", 3⟩]).consistencyScore =
      specConsistencyScore
        (([⟨0, true, 9/10, 1/10, "CRITICALLY_EMPTY", "CRITICAL", 1⟩,
           ⟨1, true, 9/10, 1/10, "CRITICALLY_EMPTY", "CRITICAL", 2⟩,
           ⟨2, false, 3/10, 3/10, "WELL_STOCKED", "NONE", 3⟩] :
            List ImpRecord).map (fun r => r.isEmpty)) ∧
    enhCalculateStability [true, false] = 2 :=
  ⟨by decide,
   (c5_stability_amended _).1 (by decide),
   (c5_stability_amended []).2.2.2 [true, false] (by decide)⟩

end ShelfDetect

